/-
Verification of the bk7231tools specification against its source.

The Python sources are shallowly embedded: bytes are `List Nat` with every
element < 256, machine integers are `Nat` with explicit `% 2^w` where the
source truncates, and fallible code (Python exceptions) returns `Option`.
-/
import Mathlib

set_option maxRecDepth 4000

namespace BK7231

/-! ## Byte-level helpers (little-endian encodings, struct pack/unpack) -/

/-- Little-endian 2-byte encoding, as produced by `struct.pack("<H", n)`. -/
def u16le (n : Nat) : List Nat := [n % 256, n / 256 % 256]

/-- Little-endian 4-byte encoding, as produced by `struct.pack("<I", n)`
and `int.to_bytes(4, "little")`. -/
def u32le (n : Nat) : List Nat :=
  [n % 256, n / 256 % 256, n / 65536 % 256, n / 16777216 % 256]

/-- `struct.pack("B", n)`: one byte, failing when out of range. -/
def pkU8 (n : Nat) : Option (List Nat) :=
  if n < 256 then some [n] else none

/-- `struct.pack("<H", n)`: two bytes little-endian, failing when out of range. -/
def pkU16 (n : Nat) : Option (List Nat) :=
  if n < 65536 then some (u16le n) else none

/-- `struct.pack("<I", n)`: four bytes little-endian, failing when out of range. -/
def pkU32 (n : Nat) : Option (List Nat) :=
  if n < 4294967296 then some (u32le n) else none

/-- Read one byte from the head of a buffer (struct unpack "B"). -/
def rdU8 : List Nat → Option (Nat × List Nat)
  | b :: r => some (b, r)
  | [] => none

/-- Read a 16-bit little-endian value (struct unpack "<H"). -/
def rdU16 : List Nat → Option (Nat × List Nat)
  | a :: b :: r => some (a + 256 * b, r)
  | _ => none

/-- Read a 32-bit little-endian value (struct unpack "<I"). -/
def rdU32 : List Nat → Option (Nat × List Nat)
  | a :: b :: c :: d :: r =>
      some (a + 256 * b + 65536 * c + 16777216 * d, r)
  | _ => none

/-- `int.from_bytes(bs, "little")` for a 4-byte buffer. -/
def fromLE4 (bs : List Nat) : Nat :=
  match bs with
  | [a, b, c, d] => a + 256 * b + 65536 * c + 16777216 * d
  | _ => 0


/-! ## CRC-32 (IEEE), as computed by `zlib.crc32` / `binascii.crc32` -/

/-- One bit-step of the reflected CRC-32 with polynomial `0xEDB88320`. -/
def crc32Round (c : Nat) : Nat :=
  if c % 2 = 1 then (c / 2) ^^^ 0xEDB88320 else c / 2

/-- `n` bit-steps of the CRC register. -/
def crc32Rounds : Nat → Nat → Nat
  | 0, c => c
  | n + 1, c => crc32Rounds n (crc32Round c)

/-- Fold one byte into the running CRC register (8 bit-steps). -/
def crc32Byte (c b : Nat) : Nat :=
  crc32Rounds 8 (c ^^^ b)

/-- `binascii.crc32(data, crc)`: IEEE CRC-32, init/xorout `0xFFFFFFFF`. -/
def crc32 (data : List Nat) (crc : Nat := 0) : Nat :=
  (data.foldl crc32Byte (crc ^^^ 0xFFFFFFFF)) ^^^ 0xFFFFFFFF


/-! ## Code cipher (`crypto/code.py`, class `BekenCodeCipher`)

`uint8`/`uint16`/`uint32` are imported by `code.py` from `crypto/util.py`,
which is not present in the source tree. Modelled from the spec: the
sub-masks are "AND-masked by a fixed constant" and the transform operates on
8/16/32-bit quantities, so the helpers truncate to the given width. -/

/-- Modelled from the spec: truncation to 8 bits (`crypto/util.py` is absent
from the source tree). -/
def uint8 (n : Nat) : Nat := n % 0x100

/-- Modelled from the spec: truncation to 16 bits (`crypto/util.py` is absent
from the source tree). -/
def uint16 (n : Nat) : Nat := n % 0x10000

/-- Modelled from the spec: truncation to 32 bits (`crypto/util.py` is absent
from the source tree). -/
def uint32 (n : Nat) : Nat := n % 0x100000000

/-- `_generate_uint_pn15` from `crypto/code.py`. -/
def generate_uint_pn15 (index_mask : Nat) (flag : Bool) : Nat :=
  if flag then 0
  else
    let val_rshift_5 := uint16 (index_mask >>> 5)
    let val_rshift_5_nibble := val_rshift_5 &&& 0xF
    let xor_lhs := uint16 (uint16 (index_mask >>> 7) + uint16 (index_mask * 0x200))
    let xor_rhs := uint16 (val_rshift_5 * 0x1000) +
      uint16 (val_rshift_5_nibble * 0x100) +
      uint8 (val_rshift_5 * 0x10) +
      val_rshift_5_nibble
    let xor_rhs := xor_rhs &&& 0x6371
    uint16 (xor_lhs ^^^ xor_rhs)

/-- `_generate_uint_pn16` from `crypto/code.py`. -/
def generate_uint_pn16 (index_mask : Nat) (flag : Bool) : Nat :=
  if flag then 0
  else
    let part1 := ((index_mask >>> 13) &&& 1) +
      ((index_mask >>> 9) &&& 1) * 2 +
      ((index_mask >>> 5) &&& 1) * 4 +
      ((index_mask >>> 1) &&& 1) * 8
    let xor_lhs := ((index_mask &&& 0x3FF) <<< 7) + ((index_mask >>> 10) &&& 0x7F)
    let xor_rhs := uint32 (((index_mask >>> 4) &&& 1) * 0x10000 + part1 * 0x1000 + part1 * 0x111)
    let xor_rhs := xor_rhs &&& 0x13659
    uint32 (xor_lhs ^^^ xor_rhs)

/-- `_generate_uint_pn32` from `crypto/code.py`. -/
def generate_uint_pn32 (index_mask : Nat) (flag : Bool) : Nat :=
  if flag then 0
  else
    let xor_lhs := uint32 ((index_mask >>> 0xF) ||| (index_mask <<< 0x11))
    let xor_rhs_start := (index_mask >>> 2) &&& 0xF
    let xor_rhs := uint32 (xor_rhs_start * 0x10000000) +
      uint32 (xor_rhs_start * 0x01000000) +
      uint32 (xor_rhs_start * 0x00100000) +
      uint32 (xor_rhs_start * 0x00010000) +
      uint32 (xor_rhs_start * 0x00001111)
    let xor_rhs := xor_rhs &&& 0xE519A4F1
    xor_lhs ^^^ xor_rhs

/-- The four 32-bit coefficients keying `BekenCodeCipher`. -/
structure BekenCodeCipher where
  coef0 : Nat
  coef1 : Nat
  coef2 : Nat
  coef3 : Nat

namespace BekenCodeCipher

/-- `BekenCodeCipher._encrypt_word`: the mask XORed onto the word at stream
index `index`. -/
def encryptWord (c : BekenCodeCipher) (index word : Nat) : Nat :=
  let coef3_highbyte_cond :=
    (c.coef3 &&& 0xff000000 == 0xff000000) || (c.coef3 &&& 0xff000000 == 0)
  let coef3_1_bit := coef3_highbyte_cond || (c.coef3 &&& 1 != 0)
  let coef3_2_bit := coef3_highbyte_cond || (c.coef3 &&& 2 != 0)
  let coef3_4_bit := coef3_highbyte_cond || (c.coef3 &&& 4 != 0)
  let coef3_8_bit := coef3_highbyte_cond || (c.coef3 &&& 8 != 0)
  let coef3_4_rsh := c.coef3 >>> 4
  let coef3_5_rsh := (c.coef3 >>> 5) &&& 3
  let coef3_8_rsh := (c.coef3 >>> 8) &&& 3
  let coef3_11_rsh := (c.coef3 >>> 11) &&& 3
  let index_mask_16_rsh := uint16 (index >>> 16)
  let index_mask_seq := uint16 (index >>> 8)
  let pn15_word :=
    if coef3_5_rsh = 0 then
      (uint8 index_mask_16_rsh + uint16 ((index >>> 24) <<< 8)) ^^^ uint16 index
    else if coef3_5_rsh = 1 then
      (uint8 index_mask_16_rsh + uint16 ((index >>> 24) <<< 8)) ^^^
        (uint8 index_mask_seq + uint16 (index <<< 8))
    else if coef3_5_rsh = 2 then
      ((index_mask_16_rsh >>> 8) + uint16 ((index >>> 16) <<< 8)) ^^^ uint16 index
    else
      ((index_mask_16_rsh >>> 8) + uint16 ((index >>> 16) <<< 8)) ^^^
        (uint8 index_mask_seq + uint16 (index <<< 8))
  let pn16_word := (index >>> coef3_8_rsh) &&& 0x1ffff
  -- PN32_SHIFTS = ((0, 0), (8, 24), (16, 16), (24, 8))
  let pn32_shift_r := [0, 8, 16, 24].getD coef3_11_rsh 0
  let pn32_shift_l := [0, 24, 16, 8].getD coef3_11_rsh 0
  let pn32_word := uint32 ((index >>> pn32_shift_r) ||| (index <<< pn32_shift_l))
  let pn15_index_mask := uint16 ((c.coef1 >>> 16) ^^^ pn15_word)
  let pn16_index_mask :=
    (uint8 c.coef1 + uint8 (c.coef1 >>> 8) * 0x200 + uint8 (coef3_4_rsh &&& 1) * 0x100) ^^^
      pn16_word
  let pn32_index_mask := pn32_word ^^^ c.coef0
  let pn15_val := generate_uint_pn15 pn15_index_mask coef3_1_bit
  let pn16_val := generate_uint_pn16 pn16_index_mask coef3_2_bit
  let pn32_val := generate_uint_pn32 pn32_index_mask coef3_4_bit
  let final_val := if coef3_8_bit then 0 else c.coef2
  let word_encryption_mask := pn15_val * 0x10000 + pn16_val
  word_encryption_mask ^^^ pn32_val ^^^ final_val ^^^ word

/-- The per-word loop of `BekenCodeCipher._encrypt_block`: 4-byte
little-endian words, each XOR-masked; `int.to_bytes(4, "little")` raises
`OverflowError` when the masked word does not fit in 32 bits, hence `none`. -/
def encryptBlockWords (c : BekenCodeCipher) : Nat → List Nat → Option (List Nat)
  | off, b0 :: b1 :: b2 :: b3 :: rest =>
      let word := fromLE4 [b0, b1, b2, b3]
      let encrypted_word := encryptWord c off word
      if encrypted_word < 4294967296 then
        (encryptBlockWords c (off + 4) rest).map (u32le encrypted_word ++ ·)
      else
        none
  | _, [] => some []
  -- unreachable: `_encrypt_block` enforces a length of exactly 32, so the
  -- word loop never sees a 1-3 byte leftover
  | _, _ => some []

/-- `BekenCodeCipher._encrypt_block`: length must be exactly 32
(`ValueError` otherwise). -/
def encryptBlock (c : BekenCodeCipher) (block : List Nat) (block_start_offset : Nat) :
    Option (List Nat) :=
  if block.length = 32 then encryptBlockWords c block_start_offset block else none

/-- The per-block loop of `BekenCodeCipher.encrypt`:
`for i in range(0, len(data), 32)` — one iteration per 32-byte block, the
count being `len(data) / 32` for 32-aligned data. -/
def encryptBlocks (c : BekenCodeCipher) : Nat → List Nat → Nat → Option (List Nat)
  | 0, _, _ => some []
  | count + 1, data, off => do
      let eb ← encryptBlock c (data.take 32) off
      let rest ← encryptBlocks c count (data.drop 32) (off + 32)
      pure (eb ++ rest)

/-- `BekenCodeCipher.encrypt`: rejects data whose length is not a multiple of
32 (`ValueError`), then transforms 32-byte blocks at increasing offsets. -/
def encrypt (c : BekenCodeCipher) (data : List Nat) (stream_start_offset : Nat) :
    Option (List Nat) :=
  if data.length % 32 = 0 then
    encryptBlocks c (data.length / 32) data stream_start_offset
  else none

/-- `BekenCodeCipher.decrypt` is literally `encrypt`. -/
def decrypt (c : BekenCodeCipher) (data : List Nat) (stream_start_offset : Nat) :
    Option (List Nat) :=
  encrypt c data stream_start_offset

end BekenCodeCipher

/-! ## KV-storage data key derivation (`analysis/kvstorage.py`, `make_data_aes`) -/

/-- `KEY_PART_1 = b"8710_2M"`. -/
def KEY_PART_1 : List Nat := [0x38, 0x37, 0x31, 0x30, 0x5F, 0x32, 0x4D]

/-- `KEY_PART_2 = b"HHRRQbyemofrtytf"`. -/
def KEY_PART_2 : List Nat :=
  [72, 72, 82, 82, 81, 98, 121, 101, 109, 111, 102, 114, 116, 121, 116, 102]

/-- The key-derivation loops of `make_data_aes`: first
`data_key[i] = KEY_PART_1[i & 0b11] + KEY_PART_2[i]`, then
`data_key[i] = (data_key[i] + inner_key[i]) % 256`. -/
def makeDataKey (inner_key : List Nat) : List Nat :=
  let base := (List.range 16).map fun i => KEY_PART_1.getD (i &&& 0b11) 0 + KEY_PART_2.getD i 0
  (List.range 16).map fun i => (base.getD i 0 + inner_key.getD i 0) % 256

/-! ## Protocol membership (`serial/protocol.py`, class `BK7231Protocol`) -/

/-- `ProtocolType` of `serial/protocol.py`. Its value is the list of
`(command code, is-long)` pairs; the source stores `SHORT = 0` / `LONG = 1`
and relies on Python `False == 0` / `True == 1`, embedded here as `Bool`. -/
inductive ProtocolType where
  | UNKNOWN
  | FULL
  | BASIC_TUYA
  | BASIC_BEKEN
deriving DecidableEq

/-- The `(code, is_long)` pair lists of `ProtocolType` (protocol.py lines 22-62). -/
def ProtocolType.value : ProtocolType → List (Nat × Bool)
  | .UNKNOWN => []
  | .FULL =>
      [(0x01, false), (0x03, false), (0x0E, false), (0x0F, false), (0x10, false),
       (0x70, false), (0xAA, false),
       (0x06, true), (0x07, true), (0x08, true), (0x09, true), (0x0A, true),
       (0x0B, true), (0x0C, true), (0x0D, true), (0x0E, true), (0x0F, true)]
  | .BASIC_TUYA =>
      [(0x0E, false), (0x0F, false), (0x10, false), (0x11, false),
       (0x06, true), (0x07, true), (0x09, true), (0x0F, true)]
  | .BASIC_BEKEN =>
      [(0x0E, false), (0x0F, false), (0x10, false),
       (0x06, true), (0x07, true), (0x09, true), (0x0F, true)]

/-- `BK7231Protocol.check_protocol` (protocol.py lines 129-134). The Python
function returns `True` for `UNKNOWN`, `False` when the pair is not in the
set, and — lacking a final `return` — the implicit `None` when the pair IS
in the set; `none` embeds that fall-through. -/
def check_protocol (pt : ProtocolType) (code : Nat) (is_long : Bool) : Option Bool :=
  if pt = ProtocolType.UNKNOWN then some true
  else if (code, is_long) ∉ pt.value then some false
  else none

/-! ## Low-level flash commands (`serial/cmd_ll_flash.py`) -/

/-- `CRC32_FF_4K` constant (cmd_ll_flash.py line 24). -/
def CRC32_FF_4K : Nat := 0xF154670A

/-- `write_retries` default (base/data.py line 34). -/
def WRITE_RETRIES : Nat := 3

/-- `EraseSize` (base/packets.py): `SECTOR_4K = 0x20`, `BLOCK_64K = 0xD8`. -/
inductive EraseSize where
  | SECTOR_4K
  | BLOCK_64K
deriving DecidableEq

/-- The `IntEnum` value of an `EraseSize`. -/
def EraseSize.val : EraseSize → Nat
  | .SECTOR_4K => 0x20
  | .BLOCK_64K => 0xD8

/-- Serial commands issued by `flash_erase_block`: the erase command itself
and the CRC read-back (`read_flash_range_crc`). -/
inductive ECmd where
  | eraseCmnd (size : Nat) (start : Nat)
  | crcQuery (start : Nat) (stop : Nat)
deriving DecidableEq

/-- The device on the other end of the serial line, abstracted: `crc` is the
chip's response to `read_flash_range_crc` in a given device state, and
`erase` is the device-state transition caused by the erase command (which on
a protected flash may change nothing). -/
structure DevModel (σ : Type) where
  crc : σ → Nat → Nat → Nat
  erase : σ → Nat → Nat → σ

/-- Outcome of `flash_erase_block`: final device state, commands issued,
whether the call succeeded (no exhausted-retries `ValueError`) and the final
`flash_erase_checked` latch. -/
structure EraseResult (σ : Type) where
  st : σ
  trace : List ECmd
  ok : Bool
  checked : Bool
deriving DecidableEq

/-- Inner `do_erase` of `flash_erase_block`: issue `BkFlashEraseBlockCmnd`. -/
def doErase {σ : Type} (M : DevModel σ) (s : σ) (size : EraseSize) (start : Nat) :
    σ × List ECmd :=
  (M.erase s size.val start, [ECmd.eraseCmnd size.val start])

/-- Inner `do_erase_verify` of `flash_erase_block` (cmd_ll_flash.py lines
192-214): read the sector CRC; skip if already all-`0xFF`; else erase, read
the CRC again, fail unless all-`0xFF`, and latch `flash_erase_checked`. -/
def doEraseVerify {σ : Type} (M : DevModel σ) (s : σ) (checked : Bool)
    (size : EraseSize) (start : Nat) : EraseResult σ :=
  let crc_pre_erase := M.crc s start (start + 0x1000)
  if crc_pre_erase = CRC32_FF_4K then
    ⟨s, [ECmd.crcQuery start (start + 0x1000)], true, checked⟩
  else
    let (s1, etr) := doErase M s size start
    let crc_post_erase := M.crc s1 start (start + 0x1000)
    if crc_post_erase ≠ CRC32_FF_4K then
      ⟨s1, ECmd.crcQuery start (start + 0x1000) :: etr ++
        [ECmd.crcQuery start (start + 0x1000)], false, checked⟩
    else
      ⟨s1, ECmd.crcQuery start (start + 0x1000) :: etr ++
        [ECmd.crcQuery start (start + 0x1000)], true, true⟩

/-- One iteration of the `while True` body of `flash_erase_block`
(cmd_ll_flash.py lines 218-227). -/
def eraseAttempt {σ : Type} (M : DevModel σ) (s : σ) (checked : Bool)
    (size : EraseSize) (start : Nat) : EraseResult σ :=
  if !checked then
    if size ≠ EraseSize.SECTOR_4K then
      let (s1, etr) := doErase M s size start
      ⟨s1, etr, true, checked⟩
    else
      doEraseVerify M s checked size start
  else
    let (s1, etr) := doErase M s size start
    ⟨s1, etr, true, checked⟩

/-- The retry loop of `flash_erase_block`: retry on `ValueError` until the
`attempt` counter exceeds `write_retries`. -/
def eraseLoop {σ : Type} (M : DevModel σ) (fuel : Nat) (s : σ) (checked : Bool)
    (size : EraseSize) (start : Nat) : EraseResult σ :=
  let r := eraseAttempt M s checked size start
  if r.ok then r
  else
    match fuel with
    | 0 => r
    | f + 1 =>
        let r2 := eraseLoop M f r.st r.checked size start
        ⟨r2.st, r.trace ++ r2.trace, r2.ok, r2.checked⟩

/-- `BK7231SerialCmdLLFlash.flash_erase_block` (cmd_ll_flash.py lines
178-234), with `dry_run=False`. -/
def flash_erase_block {σ : Type} (M : DevModel σ) (s : σ) (checked : Bool)
    (size : EraseSize) (start : Nat) : EraseResult σ :=
  eraseLoop M WRITE_RETRIES s checked size start

/-! ## Flash size detection (`serial/cmd_ll_flash.py`, `flash_detect_size`) -/

/-- Session state visible to `flash_detect_size`: the
`boot_protection_bypass` flag, and the log of 4K reads performed, each
recording the flag value at the time of the read. -/
structure DetectState where
  bypass : Bool
  trace : List (Nat × Bool)
deriving DecidableEq

/-- A 4K read (`self.flash_read_4k(start, crc_check=False)`) against the
read-oracle, recording the current `boot_protection_bypass` value. -/
def detectRead (read4kDev : Nat → List Nat) (st : DetectState) (addr : Nat) :
    List Nat × DetectState :=
  (read4kDev addr, ⟨st.bypass, st.trace ++ [(addr, st.bypass)]⟩)

/-- `sizes = [0.5, 1, 2, 4, 8, 16]` MiB, after `int(size * 0x100_000)`. -/
def DETECT_SIZES : List Nat :=
  [0x80000, 0x100000, 0x200000, 0x400000, 0x800000, 0x1000000]

/-- The `for size in sizes` wraparound loop of `flash_detect_size`. -/
def detectSizesLoop (read4kDev : Nat → List Nat) (start_data : List Nat) :
    List Nat → DetectState → Option Nat × DetectState
  | [], st => (none, st)
  | size :: rest, st =>
      let start := size + 0x11000
      let (check_data, st1) := detectRead read4kDev st start
      if check_data = start_data then (some size, st1)
      else detectSizesLoop read4kDev start_data rest st1

/-- `BK7231SerialCmdLLFlash.flash_detect_size` (cmd_ll_flash.py lines 76-94):
sets `boot_protection_bypass = False`, reads the reference page at `0x11000`,
probes candidate sizes for wraparound, and in a `finally:` block sets
`boot_protection_bypass = True`; `none` is the `ValueError` raised when no
candidate matches. -/
def flash_detect_size (read4kDev : Nat → List Nat) (_bypass0 : Bool) :
    Option Nat × DetectState :=
  let st0 : DetectState := ⟨false, []⟩
  let safe_offset := 0x11000
  let (start_data, st1) := detectRead read4kDev st0 safe_offset
  let (res, st2) := detectSizesLoop read4kDev start_data DETECT_SIZES st1
  (res, ⟨true, st2.trace⟩)

/-! ## High-level flash read (`serial/cmd_hl_flash.py`, `flash_read`) -/

/-- `flash_read_4k` abstracted over the flash contents `mem`: an aligned 4 KiB
page read returning bytes `mem addr .. mem (addr+4095)`. -/
def read4k (mem : Nat → Nat) (addr : Nat) : List Nat :=
  (List.range 4096).map fun j => mem (addr + j)

/-- The `for i in range(block_count)` loop of `flash_read`: yields
`chunk[start : start+length]` of each 4 KiB page, then clears `start`,
decreases `length` by the yielded chunk and advances `block_start`. -/
def flashReadGo (mem : Nat → Nat) : Nat → Nat → Nat → Nat → List (List Nat)
  | 0, _, _, _ => []
  | count + 1, start, length, block_start =>
      let chunk := ((read4k mem block_start).drop start).take length
      chunk :: flashReadGo mem count 0 (length - chunk.length) (block_start + 4096)

/-- `BK7231SerialCmdHLFlash.flash_read` (cmd_hl_flash.py lines 67-91), the
yielded chunks collected into a list. `block_count = (length - 1) // 4096 + 1`
uses Python floor division: for `length = 0` it is `0`, otherwise it matches
the natural-number formula. `start & ~0xFFF` clears the low 12 bits and
`start & 0xFFF` keeps them. -/
def flash_read (mem : Nat → Nat) (flash_size start length : Nat) :
    Option (List (List Nat)) :=
  if flash_size ≠ 0 ∧ start + length > flash_size then none
  else
    let block_count := if length = 0 then 0 else (length - 1) / 4096 + 1
    some (flashReadGo mem block_count (start &&& 0xFFF) length
      ((start >>> 12) <<< 12))

/-- `BK7231SerialCmdHLFlash.flash_read_bytes` (cmd_hl_flash.py lines 93-103):
concatenates the generator output and asserts the total equals `length`;
`none` is a raised `AssertionError` (or the size `ValueError`). -/
def flash_read_bytes (mem : Nat → Nat) (flash_size start length : Nat) :
    Option (List Nat) :=
  (flash_read mem flash_size start length).bind fun chunks =>
    let out := chunks.flatten
    if out.length = length then some out else none

/-! ## Flash programming loop (`serial/cmd_hl_flash.py`, `program_flash`) -/

/-- Flash commands issued by the 4 KiB loop of `program_flash`:
`flash_erase_block(addr, SECTOR_4K)` and `flash_write_4k(addr, block)`. -/
inductive PCmd where
  | erase (addr : Nat)
  | write (addr : Nat) (data : List Nat)
deriving DecidableEq

/-- Python `block.strip(b"\xff")`: drop `0xFF` bytes from both ends. -/
def pyStripFF (l : List Nat) : List Nat :=
  ((l.dropWhile (· == 255)).reverse.dropWhile (· == 255)).reverse

/-- The `while True` 4 KiB loop of `program_flash` (cmd_hl_flash.py lines
168-210), with `crc_check=False` and `dry_run=False`: read up to 4096 bytes,
stop when no bytes remain (or `addr` passed `end`), update the running
CRC-32, erase the sector, and write it unless the block is entirely `0xFF`.
Returns the issued commands and the final running CRC. -/
def programFlashGo (remaining : List Nat) (addr endAddr crc : Nat) :
    List PCmd × Nat :=
  let block := remaining.take 4096
  let block_size := if addr < endAddr then block.length else 0
  let block_empty := (pyStripFF block).length = 0
  if block_size = 0 then ([], crc)
  else
    let crc1 := crc32 block crc
    let cmds := PCmd.erase addr ::
      (if block_empty then [] else [PCmd.write addr block])
    let rest := programFlashGo (remaining.drop 4096) (addr + block_size) endAddr crc1
    (cmds ++ rest.1, rest.2)
termination_by remaining.length
decreasing_by
  rename_i hsz
  simp only [List.length_drop]
  have hne : remaining.length ≠ 0 := by
    intro h0
    apply hsz
    show (if addr < endAddr then (List.take 4096 remaining).length else 0) = 0
    have hz : (List.take 4096 remaining).length = 0 := by
      simp [List.length_take, h0]
    rw [hz]
    split <;> rfl
  omega

/-- What the spec says the loop does, written from the spec's words: for each
4096-byte chunk in order, an erase of the enclosing sector; a 4K write only
when the chunk is not entirely `0xFF`. -/
def programFlashSpecTrace (data : List Nat) (addr : Nat) : List PCmd :=
  if data.isEmpty then []
  else
    let block := data.take 4096
    (PCmd.erase addr :: (if block.all (· == 255) then [] else [PCmd.write addr block])) ++
      programFlashSpecTrace (data.drop 4096) (addr + block.length)
termination_by data.length
decreasing_by
  rename_i hne
  simp only [List.length_drop]
  have h : data.length ≠ 0 := by
    simpa [List.isEmpty_iff_length_eq_zero] using hne
  omega

/-! ## The closed packet set (`serial/base/packets.py`)

Each `@dataclass` `Packet` subclass becomes a constructor carrying its
fields. `serialize`/`deserialize` are the struct-format codecs specialized
per class (the source derives them by reflection over `FORMAT`); `struct`
range errors make `serialize` fail with `none`, and `deserialize` demands
exactly the format size except after a trailing-bytes `$` field. The field
named `end` in `BkCheckCrcCmnd` is spelled `end_` here (`end` is reserved). -/

inductive Packet where
  | BkLinkCheckCmnd                                                 -- 0x00, ""
  | BkLinkCheckResp (value : Nat)                                   -- 0x01, "B"
  | BkWriteRegCmnd (address : Nat) (value : Nat)                    -- 0x01, "<II"
  | BkWriteRegResp (address : Nat) (value : Nat)                    -- 0x01, "<II"
  | BkReadRegCmnd (address : Nat)                                   -- 0x03, "<I"
  | BkReadRegResp (address : Nat) (value : Nat)                     -- 0x03, "<II"
  | BkRebootCmnd (value : Nat)                                      -- 0x0E, "B"
  | BkSetBaudRateCmnd (baudrate : Nat) (delay_ms : Nat)             -- 0x0F, "<IB"
  | BkCheckCrcCmnd (start : Nat) (end_ : Nat)                       -- 0x10, "<II"
  | BkCheckCrcResp (crc32 : Nat)                                    -- 0x10, "<I"
  | BkBootVersionCmnd                                               -- 0x11, ""
  | BkBootVersionResp (version : List Nat)                          -- 0x11, "$"
  | BkFlashWriteCmnd (start : Nat) (data : List Nat)                -- 0x06, "<I$"
  | BkFlashWriteResp (status : Nat) (start : Nat) (written : Nat)   -- 0x06, "<BIB"
  | BkFlashWrite4KCmnd (start : Nat) (data : List Nat)              -- 0x07, "<I$"
  | BkFlashWrite4KResp (status : Nat) (start : Nat)                 -- 0x07, "<BI"
  | BkFlashRead4KCmnd (start : Nat)                                 -- 0x09, "<I"
  | BkFlashRead4KResp (status : Nat) (start : Nat) (data : List Nat) -- 0x09, "<BI$"
  | BkFlashReg8ReadCmnd (cmd : Nat)                                 -- 0x0C, "B"
  | BkFlashReg8ReadResp (status : Nat) (cmd : Nat) (data0 : Nat)    -- 0x0C, "BBB"
  | BkFlashReg8WriteCmnd (cmd : Nat) (data : Nat)                   -- 0x0D, "BB"
  | BkFlashReg8WriteResp (status : Nat) (cmd : Nat) (data : Nat)    -- 0x0D, "BBB"
  | BkFlashReg16WriteCmnd (cmd : Nat) (data : Nat)                  -- 0x0D, "<BH"
  | BkFlashReg16WriteResp (status : Nat) (cmd : Nat) (data : Nat)   -- 0x0D, "<BBH"
  | BkFlashReg24ReadCmnd (cmd : Nat)                                -- 0x0E, "<I"
  | BkFlashReg24ReadResp (status : Nat) (data0 : Nat) (data1 : Nat) (data2 : Nat) -- 0x0E, "<BxBBB"
  | BkFlashEraseBlockCmnd (erase_size : Nat) (start : Nat)          -- 0x0F, "<BI"
deriving DecidableEq

/-- The class of a packet: `cls.deserialize` in the source is a classmethod,
so decoding is done per class. -/
inductive PacketClass where
  | BkLinkCheckCmnd | BkLinkCheckResp
  | BkWriteRegCmnd | BkWriteRegResp
  | BkReadRegCmnd | BkReadRegResp
  | BkRebootCmnd
  | BkSetBaudRateCmnd
  | BkCheckCrcCmnd | BkCheckCrcResp
  | BkBootVersionCmnd | BkBootVersionResp
  | BkFlashWriteCmnd | BkFlashWriteResp
  | BkFlashWrite4KCmnd | BkFlashWrite4KResp
  | BkFlashRead4KCmnd | BkFlashRead4KResp
  | BkFlashReg8ReadCmnd | BkFlashReg8ReadResp
  | BkFlashReg8WriteCmnd | BkFlashReg8WriteResp
  | BkFlashReg16WriteCmnd | BkFlashReg16WriteResp
  | BkFlashReg24ReadCmnd | BkFlashReg24ReadResp
  | BkFlashEraseBlockCmnd
deriving DecidableEq

namespace Packet

/-- The class of a packet instance. -/
def classOf : Packet → PacketClass
  | BkLinkCheckCmnd => .BkLinkCheckCmnd
  | BkLinkCheckResp _ => .BkLinkCheckResp
  | BkWriteRegCmnd _ _ => .BkWriteRegCmnd
  | BkWriteRegResp _ _ => .BkWriteRegResp
  | BkReadRegCmnd _ => .BkReadRegCmnd
  | BkReadRegResp _ _ => .BkReadRegResp
  | BkRebootCmnd _ => .BkRebootCmnd
  | BkSetBaudRateCmnd _ _ => .BkSetBaudRateCmnd
  | BkCheckCrcCmnd _ _ => .BkCheckCrcCmnd
  | BkCheckCrcResp _ => .BkCheckCrcResp
  | BkBootVersionCmnd => .BkBootVersionCmnd
  | BkBootVersionResp _ => .BkBootVersionResp
  | BkFlashWriteCmnd _ _ => .BkFlashWriteCmnd
  | BkFlashWriteResp _ _ _ => .BkFlashWriteResp
  | BkFlashWrite4KCmnd _ _ => .BkFlashWrite4KCmnd
  | BkFlashWrite4KResp _ _ => .BkFlashWrite4KResp
  | BkFlashRead4KCmnd _ => .BkFlashRead4KCmnd
  | BkFlashRead4KResp _ _ _ => .BkFlashRead4KResp
  | BkFlashReg8ReadCmnd _ => .BkFlashReg8ReadCmnd
  | BkFlashReg8ReadResp _ _ _ => .BkFlashReg8ReadResp
  | BkFlashReg8WriteCmnd _ _ => .BkFlashReg8WriteCmnd
  | BkFlashReg8WriteResp _ _ _ => .BkFlashReg8WriteResp
  | BkFlashReg16WriteCmnd _ _ => .BkFlashReg16WriteCmnd
  | BkFlashReg16WriteResp _ _ _ => .BkFlashReg16WriteResp
  | BkFlashReg24ReadCmnd _ => .BkFlashReg24ReadCmnd
  | BkFlashReg24ReadResp _ _ _ _ => .BkFlashReg24ReadResp
  | BkFlashEraseBlockCmnd _ _ => .BkFlashEraseBlockCmnd

/-- `CODE` of each packet class. -/
def code : Packet → Nat
  | BkLinkCheckCmnd => 0x00
  | BkLinkCheckResp _ => 0x01
  | BkWriteRegCmnd _ _ => 0x01
  | BkWriteRegResp _ _ => 0x01
  | BkReadRegCmnd _ => 0x03
  | BkReadRegResp _ _ => 0x03
  | BkRebootCmnd _ => 0x0E
  | BkSetBaudRateCmnd _ _ => 0x0F
  | BkCheckCrcCmnd _ _ => 0x10
  | BkCheckCrcResp _ => 0x10
  | BkBootVersionCmnd => 0x11
  | BkBootVersionResp _ => 0x11
  | BkFlashWriteCmnd _ _ => 0x06
  | BkFlashWriteResp _ _ _ => 0x06
  | BkFlashWrite4KCmnd _ _ => 0x07
  | BkFlashWrite4KResp _ _ => 0x07
  | BkFlashRead4KCmnd _ => 0x09
  | BkFlashRead4KResp _ _ _ => 0x09
  | BkFlashReg8ReadCmnd _ => 0x0C
  | BkFlashReg8ReadResp _ _ _ => 0x0C
  | BkFlashReg8WriteCmnd _ _ => 0x0D
  | BkFlashReg8WriteResp _ _ _ => 0x0D
  | BkFlashReg16WriteCmnd _ _ => 0x0D
  | BkFlashReg16WriteResp _ _ _ => 0x0D
  | BkFlashReg24ReadCmnd _ => 0x0E
  | BkFlashReg24ReadResp _ _ _ _ => 0x0E
  | BkFlashEraseBlockCmnd _ _ => 0x0F

/-- `IS_LONG` of each packet class (`False` unless declared). -/
def isLong : Packet → Bool
  | BkFlashWriteCmnd _ _ => true
  | BkFlashWrite4KCmnd _ _ => true
  | BkFlashRead4KCmnd _ => true
  | BkFlashReg8ReadCmnd _ => true
  | BkFlashReg8WriteCmnd _ _ => true
  | BkFlashReg16WriteCmnd _ _ => true
  | BkFlashReg24ReadCmnd _ => true
  | BkFlashEraseBlockCmnd _ _ => true
  | _ => false

/-- `Packet.serialize` (base/packets.py lines 31-37): `struct.pack` over the
declared `FORMAT`, with a trailing-bytes field appended verbatim for `$`
formats; out-of-range fields raise `struct.error` (`none`). -/
def serialize : Packet → Option (List Nat)
  | BkLinkCheckCmnd => some []
  | BkLinkCheckResp value => pkU8 value
  | BkWriteRegCmnd address value =>
      do pure ((← pkU32 address) ++ (← pkU32 value))
  | BkWriteRegResp address value =>
      do pure ((← pkU32 address) ++ (← pkU32 value))
  | BkReadRegCmnd address => pkU32 address
  | BkReadRegResp address value =>
      do pure ((← pkU32 address) ++ (← pkU32 value))
  | BkRebootCmnd value => pkU8 value
  | BkSetBaudRateCmnd baudrate delay_ms =>
      do pure ((← pkU32 baudrate) ++ (← pkU8 delay_ms))
  | BkCheckCrcCmnd start end_ =>
      do pure ((← pkU32 start) ++ (← pkU32 end_))
  | BkCheckCrcResp crc => pkU32 crc
  | BkBootVersionCmnd => some []
  | BkBootVersionResp version => some version
  | BkFlashWriteCmnd start data =>
      do pure ((← pkU32 start) ++ data)
  | BkFlashWriteResp status start written =>
      do pure ((← pkU8 status) ++ ((← pkU32 start) ++ (← pkU8 written)))
  | BkFlashWrite4KCmnd start data =>
      do pure ((← pkU32 start) ++ data)
  | BkFlashWrite4KResp status start =>
      do pure ((← pkU8 status) ++ (← pkU32 start))
  | BkFlashRead4KCmnd start => pkU32 start
  | BkFlashRead4KResp status start data =>
      do pure ((← pkU8 status) ++ ((← pkU32 start) ++ data))
  | BkFlashReg8ReadCmnd cmd => pkU8 cmd
  | BkFlashReg8ReadResp status cmd data0 =>
      do pure ((← pkU8 status) ++ ((← pkU8 cmd) ++ (← pkU8 data0)))
  | BkFlashReg8WriteCmnd cmd data =>
      do pure ((← pkU8 cmd) ++ (← pkU8 data))
  | BkFlashReg8WriteResp status cmd data =>
      do pure ((← pkU8 status) ++ ((← pkU8 cmd) ++ (← pkU8 data)))
  | BkFlashReg16WriteCmnd cmd data =>
      do pure ((← pkU8 cmd) ++ (← pkU16 data))
  | BkFlashReg16WriteResp status cmd data =>
      do pure ((← pkU8 status) ++ ((← pkU8 cmd) ++ (← pkU16 data)))
  | BkFlashReg24ReadCmnd cmd => pkU32 cmd
  | BkFlashReg24ReadResp status data0 data1 data2 =>
      -- "<BxBBB": the pad byte is written as 0x00
      do pure ((← pkU8 status) ++ ([0] ++ ((← pkU8 data0) ++ ((← pkU8 data1) ++ (← pkU8 data2)))))
  | BkFlashEraseBlockCmnd erase_size start =>
      do pure ((← pkU8 erase_size) ++ (← pkU32 start))

/-- `struct.unpack` demands the buffer be fully consumed. -/
def expectEnd : List Nat → Option Unit
  | [] => some ()
  | _ => none

/-- `Packet.deserialize` (base/packets.py lines 39-48) specialized per class,
plus the `BkFlashEraseBlockCmnd.deserialize` override (lines 333-337) that
re-raises unless the first byte is a member of `EraseSize`. -/
def deserialize : PacketClass → List Nat → Option Packet
  | .BkLinkCheckCmnd, data => do
      let _ ← expectEnd data
      pure BkLinkCheckCmnd
  | .BkLinkCheckResp, data => do
      let (value, r) ← rdU8 data
      let _ ← expectEnd r
      pure (BkLinkCheckResp value)
  | .BkWriteRegCmnd, data => do
      let (address, r1) ← rdU32 data
      let (value, r2) ← rdU32 r1
      let _ ← expectEnd r2
      pure (BkWriteRegCmnd address value)
  | .BkWriteRegResp, data => do
      let (address, r1) ← rdU32 data
      let (value, r2) ← rdU32 r1
      let _ ← expectEnd r2
      pure (BkWriteRegResp address value)
  | .BkReadRegCmnd, data => do
      let (address, r1) ← rdU32 data
      let _ ← expectEnd r1
      pure (BkReadRegCmnd address)
  | .BkReadRegResp, data => do
      let (address, r1) ← rdU32 data
      let (value, r2) ← rdU32 r1
      let _ ← expectEnd r2
      pure (BkReadRegResp address value)
  | .BkRebootCmnd, data => do
      let (value, r) ← rdU8 data
      let _ ← expectEnd r
      pure (BkRebootCmnd value)
  | .BkSetBaudRateCmnd, data => do
      let (baudrate, r1) ← rdU32 data
      let (delay_ms, r2) ← rdU8 r1
      let _ ← expectEnd r2
      pure (BkSetBaudRateCmnd baudrate delay_ms)
  | .BkCheckCrcCmnd, data => do
      let (start, r1) ← rdU32 data
      let (end_, r2) ← rdU32 r1
      let _ ← expectEnd r2
      pure (BkCheckCrcCmnd start end_)
  | .BkCheckCrcResp, data => do
      let (crc, r1) ← rdU32 data
      let _ ← expectEnd r1
      pure (BkCheckCrcResp crc)
  | .BkBootVersionCmnd, data => do
      let _ ← expectEnd data
      pure BkBootVersionCmnd
  | .BkBootVersionResp, data => some (BkBootVersionResp data)
  | .BkFlashWriteCmnd, data => do
      let (start, r1) ← rdU32 data
      pure (BkFlashWriteCmnd start r1)
  | .BkFlashWriteResp, data => do
      let (status, r1) ← rdU8 data
      let (start, r2) ← rdU32 r1
      let (written, r3) ← rdU8 r2
      let _ ← expectEnd r3
      pure (BkFlashWriteResp status start written)
  | .BkFlashWrite4KCmnd, data => do
      let (start, r1) ← rdU32 data
      pure (BkFlashWrite4KCmnd start r1)
  | .BkFlashWrite4KResp, data => do
      let (status, r1) ← rdU8 data
      let (start, r2) ← rdU32 r1
      let _ ← expectEnd r2
      pure (BkFlashWrite4KResp status start)
  | .BkFlashRead4KCmnd, data => do
      let (start, r1) ← rdU32 data
      let _ ← expectEnd r1
      pure (BkFlashRead4KCmnd start)
  | .BkFlashRead4KResp, data => do
      let (status, r1) ← rdU8 data
      let (start, r2) ← rdU32 r1
      pure (BkFlashRead4KResp status start r2)
  | .BkFlashReg8ReadCmnd, data => do
      let (cmd, r1) ← rdU8 data
      let _ ← expectEnd r1
      pure (BkFlashReg8ReadCmnd cmd)
  | .BkFlashReg8ReadResp, data => do
      let (status, r1) ← rdU8 data
      let (cmd, r2) ← rdU8 r1
      let (data0, r3) ← rdU8 r2
      let _ ← expectEnd r3
      pure (BkFlashReg8ReadResp status cmd data0)
  | .BkFlashReg8WriteCmnd, data => do
      let (cmd, r1) ← rdU8 data
      let (d, r2) ← rdU8 r1
      let _ ← expectEnd r2
      pure (BkFlashReg8WriteCmnd cmd d)
  | .BkFlashReg8WriteResp, data => do
      let (status, r1) ← rdU8 data
      let (cmd, r2) ← rdU8 r1
      let (d, r3) ← rdU8 r2
      let _ ← expectEnd r3
      pure (BkFlashReg8WriteResp status cmd d)
  | .BkFlashReg16WriteCmnd, data => do
      let (cmd, r1) ← rdU8 data
      let (d, r2) ← rdU16 r1
      let _ ← expectEnd r2
      pure (BkFlashReg16WriteCmnd cmd d)
  | .BkFlashReg16WriteResp, data => do
      let (status, r1) ← rdU8 data
      let (cmd, r2) ← rdU8 r1
      let (d, r3) ← rdU16 r2
      let _ ← expectEnd r3
      pure (BkFlashReg16WriteResp status cmd d)
  | .BkFlashReg24ReadCmnd, data => do
      let (cmd, r1) ← rdU32 data
      let _ ← expectEnd r1
      pure (BkFlashReg24ReadCmnd cmd)
  | .BkFlashReg24ReadResp, data => do
      let (status, r1) ← rdU8 data
      let (_pad, r2) ← rdU8 r1
      let (data0, r3) ← rdU8 r2
      let (data1, r4) ← rdU8 r3
      let (data2, r5) ← rdU8 r4
      let _ ← expectEnd r5
      pure (BkFlashReg24ReadResp status data0 data1 data2)
  | .BkFlashEraseBlockCmnd, data => do
      let (erase_size, r1) ← rdU8 data
      let (start, r2) ← rdU32 r1
      let _ ← expectEnd r2
      -- `EraseSize(packet.erase_size)` raises unless a member of the enum
      if erase_size = 0x20 ∨ erase_size = 0xD8 then
        pure (BkFlashEraseBlockCmnd erase_size start)
      else none

/-- A well-typed packet: the `erase_size: EraseSize` annotation restricts the
field to the two enum members; every other field is `int`/`bytes`. -/
def wf : Packet → Prop
  | BkFlashEraseBlockCmnd erase_size _ => erase_size = 0x20 ∨ erase_size = 0xD8
  | _ => True

end Packet

/-! ## Command framing (`serial/protocol.py`, `BK7231Protocol.encode`) -/

/-- `PACKET_CMND_PREAMBLE = b"\x01\xE0\xFC"`. -/
def PACKET_CMND_PREAMBLE : List Nat := [0x01, 0xE0, 0xFC]

/-- `PACKET_CMND_LONG = b"\xFF\xF4"`. -/
def PACKET_CMND_LONG : List Nat := [0xFF, 0xF4]

/-- The framing of `BK7231Protocol.encode` (protocol.py lines 136-148) on a
code, long flag, and serialized body: preamble, then `FF F4` + 16-bit LE
length when `size >= 0xFF or IS_LONG`, else a single length byte; the length
counts code+body. -/
def encodeRaw (code : Nat) (is_long : Bool) (data : List Nat) : Option (List Nat) :=
  let size := data.length + 1
  if size ≥ 0xFF ∨ is_long = true then
    do pure (PACKET_CMND_PREAMBLE ++ PACKET_CMND_LONG ++ (← pkU16 size) ++
      (← pkU8 code) ++ data)
  else
    do pure (PACKET_CMND_PREAMBLE ++ (← pkU8 size) ++ (← pkU8 code) ++ data)

/-- `BK7231Protocol.encode` of a packet. -/
def encode (p : Packet) : Option (List Nat) :=
  (p.serialize).bind (encodeRaw p.code p.isLong)

/-! ## RBL containers (`analysis/rbl.py`)

`Container.from_bytestream` is embedded for `flash_layout=None` (the
parameter's default): the stream is positioned at the container magic, the
header is read in place, and the payload is the `size_package` bytes
following the header. -/

/-- `Header` (rbl.py lines 22-37): struct format `"<4sII16s24s24sIIIII"`
(96 bytes); the field named `crc32` is the payload CRC, `info_crc32` the
header CRC. `name`/`version`/`sn` are kept as their decoded byte
sequences. -/
structure RblHeader where
  magic : List Nat
  algo : Nat
  timestamp : Nat
  name : List Nat
  version : List Nat
  sn : List Nat
  crc32 : Nat
  hash : Nat
  size_raw : Nat
  size_package : Nat
  info_crc32 : Nat
deriving DecidableEq

/-- `Container` (rbl.py lines 66-69): a parsed header and its payload,
`none` when the payload failed validation. -/
structure Container where
  header : RblHeader
  payload : Option (List Nat)
deriving DecidableEq

/-- `Header.MAGIC = b"RBL\x00"`. -/
def RBL_MAGIC : List Nat := [0x52, 0x42, 0x4C, 0x00]

/-- `__clean_c_string`: `x[:x.index(b"\x00")].decode()` — requires a NUL
terminator (`ValueError` otherwise) and a decodable prefix. Decoding is
modelled for the ASCII fragment of UTF-8 (all prefix bytes < 128); multibyte
UTF-8 names are outside the embedded domain. -/
def cClean (l : List Nat) : Option (List Nat) :=
  if 0 ∈ l ∧ (l.takeWhile (· ≠ 0)).all (· < 128) then
    some (l.takeWhile (· ≠ 0))
  else none

/-- `Header.from_bytes` (rbl.py lines 39-47): unpack the 96-byte struct
(exact length required), validate the header CRC-32 (`info_crc32` against
the CRC of the preceding 92 bytes), then clean the three strings. The
`OTAAlgorithm(...)` conversion keeps the integer (`IntFlag` accepts any
combination). -/
def headerFromBytes (data : List Nat) : Option RblHeader :=
  if data.length = 96 then
    if crc32 (data.take 92) 0 = fromLE4 ((data.drop 92).take 4) then do
      let name ← cClean ((data.drop 12).take 16)
      let version ← cClean ((data.drop 28).take 24)
      let sn ← cClean ((data.drop 52).take 24)
      pure ⟨data.take 4, fromLE4 ((data.drop 4).take 4),
        fromLE4 ((data.drop 8).take 4), name, version, sn,
        fromLE4 ((data.drop 76).take 4), fromLE4 ((data.drop 80).take 4),
        fromLE4 ((data.drop 84).take 4), fromLE4 ((data.drop 88).take 4),
        fromLE4 ((data.drop 92).take 4)⟩
    else none
  else none

/-- The 96-byte witness stream for the bad-payload-CRC scenario: a valid
header (name `"A"`, version `"v"`, serial `"s"`, sizes 0) whose `crc32`
field is 1, while the empty reconstructed payload has CRC-32 0. -/
def c8WitnessData : List Nat :=
  [82, 66, 76, 0, 0, 0, 0, 0, 0, 0, 0, 0, 65, 0, 0, 0, 0, 0, 0, 0, 0, 0, 0,
   0, 0, 0, 0, 0, 118, 0, 0, 0, 0, 0, 0, 0, 0, 0, 0, 0, 0, 0, 0, 0, 0, 0, 0,
   0, 0, 0, 0, 0, 115, 0, 0, 0, 0, 0, 0, 0, 0, 0, 0, 0, 0, 0, 0, 0, 0, 0, 0,
   0, 0, 0, 0, 0, 1, 0, 0, 0, 0, 0, 0, 0, 0, 0, 0, 0, 0, 0, 0, 0, 180, 191,
   208, 237]

/-- First 31 bytes of `c8WitnessData` (for chunked CRC evaluation). -/
def c8W1 : List Nat :=
  [82, 66, 76, 0, 0, 0, 0, 0, 0, 0, 0, 0, 65, 0, 0, 0, 0, 0, 0, 0, 0, 0, 0,
   0, 0, 0, 0, 0, 118, 0, 0]

/-- Bytes 31-61 of `c8WitnessData`. -/
def c8W2 : List Nat :=
  [0, 0, 0, 0, 0, 0, 0, 0, 0, 0, 0, 0, 0, 0, 0, 0, 0, 0, 0, 0, 0, 115, 0, 0,
   0, 0, 0, 0, 0, 0, 0]

/-- Bytes 62-91 of `c8WitnessData`. -/
def c8W3 : List Nat :=
  [0, 0, 0, 0, 0, 0, 0, 0, 0, 0, 0, 0, 0, 0, 1, 0, 0, 0, 0, 0, 0, 0, 0, 0,
   0, 0, 0, 0, 0, 0]

/-- Payload reconstruction of `Container.from_bytestream` (rbl.py lines
93-97), `flash_layout=None`: read `size_package` bytes after the header; for
`OTAAlgorithm.NONE` truncate to `size_raw` and append `padding` bytes each
equal to `padding = size_package - size_raw` (`bytes([padding])` raises
unless `0 <= padding < 256`). -/
def reconstructPayload (h : RblHeader) (data : List Nat) : Option (List Nat) :=
  let payload := (data.drop 96).take h.size_package
  if h.algo = 0 then
    if h.size_raw ≤ h.size_package ∧ h.size_package - h.size_raw < 256 then
      some (payload.take h.size_raw ++
        List.replicate (h.size_package - h.size_raw) (h.size_package - h.size_raw))
    else none
  else some payload

/-- `Container.from_bytestream` (rbl.py lines 71-102), `flash_layout=None`:
check the magic, parse the header, reconstruct the payload, and validate the
payload CRC-32 against `header.crc32` — on mismatch the container is still
returned, with `payload = None`. -/
def containerFromBytes (data : List Nat) : Option Container :=
  if data.take 4 ≠ RBL_MAGIC then none
  else do
    let header ← headerFromBytes (data.take 96)
    let payload ← reconstructPayload header data
    let payloadOpt := if crc32 payload 0 = header.crc32 then some payload else none
    pure ⟨header, payloadOpt⟩

/-! # Theorems -/

@[simp] theorem u16le_length (n : Nat) : (u16le n).length = 2 := rfl

@[simp] theorem u32le_length (n : Nat) : (u32le n).length = 4 := rfl

@[simp] theorem rdU8_append (b : Nat) (r : List Nat) :
    rdU8 (b :: r) = some (b, r) := rfl

theorem rdU16_u16le (n : Nat) (r : List Nat) (h : n < 65536) :
    rdU16 (u16le n ++ r) = some (n, r) := by
  simp only [u16le, List.cons_append, List.nil_append, rdU16]
  congr 1
  congr 1
  omega

theorem rdU32_u32le (n : Nat) (r : List Nat) (h : n < 4294967296) :
    rdU32 (u32le n ++ r) = some (n, r) := by
  simp only [u32le, List.cons_append, List.nil_append, rdU32]
  congr 1
  congr 1
  omega

theorem fromLE4_u32le (n : Nat) (h : n < 4294967296) :
    fromLE4 (u32le n) = n := by
  simp only [u32le, fromLE4]
  omega

theorem u32le_fromLE4 (a b c d : Nat)
    (ha : a < 256) (hb : b < 256) (hc : c < 256) (hd : d < 256) :
    u32le (fromLE4 [a, b, c, d]) = [a, b, c, d] := by
  simp only [fromLE4, u32le]
  congr 1
  · omega
  congr 1
  · omega
  congr 1
  · omega
  congr 1
  omega

theorem fromLE4_lt (a b c d : Nat)
    (ha : a < 256) (hb : b < 256) (hc : c < 256) (hd : d < 256) :
    fromLE4 [a, b, c, d] < 4294967296 := by
  simp only [fromLE4]
  omega

theorem xor_xor_self (a b : Nat) : a ^^^ b ^^^ b = a := by
  rw [Nat.xor_assoc, Nat.xor_self, Nat.xor_zero]

/-- Streaming composition: feeding `a` then `b` equals feeding `a ++ b`. -/
theorem crc32_append (a b : List Nat) (crc : Nat) :
    crc32 b (crc32 a crc) = crc32 (a ++ b) crc := by
  simp only [crc32, List.foldl_append, xor_xor_self]

namespace BekenCodeCipher

/-- The word transform is the XOR of the word with a mask depending only on
the index and the coefficients. -/
theorem encryptWord_xor (c : BekenCodeCipher) (i w : Nat) :
    c.encryptWord i w = c.encryptWord i 0 ^^^ w := by
  simp only [encryptWord, Nat.xor_zero]

/-- XORing the same index-mask twice restores the word. -/
theorem encryptWord_involutive (c : BekenCodeCipher) (i w : Nat) :
    c.encryptWord i (c.encryptWord i w) = w := by
  rw [encryptWord_xor, encryptWord_xor c i w, ← Nat.xor_assoc, Nat.xor_self,
    Nat.zero_xor]

theorem u32le_mem_lt (n : Nat) : ∀ x ∈ u32le n, x < 256 := by
  simp only [u32le, List.mem_cons, List.not_mem_nil, or_false]
  intro x hx
  rcases hx with h | h | h | h <;> omega

/-- Round-trip of the word loop: a successful pass is undone by a second pass
at the same offsets, and the output is again a byte string of equal length. -/
theorem encryptBlockWords_roundtrip (c : BekenCodeCipher) :
    ∀ (off : Nat) (block : List Nat), ∀ e : List Nat,
    (∀ x ∈ block, x < 256) →
    block.length % 4 = 0 →
    encryptBlockWords c off block = some e →
    encryptBlockWords c off e = some block ∧
      (∀ x ∈ e, x < 256) ∧ e.length = block.length := by
  intro off block
  induction off, block using encryptBlockWords.induct c with
  | case1 off b0 b1 b2 b3 rest word encrypted_word hlt ih =>
      intro e hb hlen henc
      simp only [encryptBlockWords, if_pos hlt] at henc
      obtain ⟨erest, herest, rfl⟩ := Option.map_eq_some'.mp henc
      have hbrest : ∀ x ∈ rest, x < 256 := by
        intro x hx
        exact hb x (by simp [hx])
      have hlrest : rest.length % 4 = 0 := by
        simp only [List.length_cons] at hlen
        omega
      obtain ⟨h1, h2, h3⟩ := ih erest hbrest hlrest herest
      have hb0 : b0 < 256 := hb b0 (by simp)
      have hb1 : b1 < 256 := hb b1 (by simp)
      have hb2 : b2 < 256 := hb b2 (by simp)
      have hb3 : b3 < 256 := hb b3 (by simp)
      have hwlt : word < 4294967296 := fromLE4_lt b0 b1 b2 b3 hb0 hb1 hb2 hb3
      refine ⟨?_, ?_, ?_⟩
      · -- the second pass over `u32le encrypted_word ++ erest`
        have hword : fromLE4 [encrypted_word % 256, encrypted_word / 256 % 256,
            encrypted_word / 65536 % 256, encrypted_word / 16777216 % 256] =
            encrypted_word := by
          simpa [u32le] using fromLE4_u32le encrypted_word hlt
        have hinv : c.encryptWord off encrypted_word = word :=
          encryptWord_involutive c off word
        have hback : u32le word = [b0, b1, b2, b3] :=
          u32le_fromLE4 b0 b1 b2 b3 hb0 hb1 hb2 hb3
        show encryptBlockWords c off
          (encrypted_word % 256 :: encrypted_word / 256 % 256 ::
            encrypted_word / 65536 % 256 :: encrypted_word / 16777216 % 256 :: erest) =
          some (b0 :: b1 :: b2 :: b3 :: rest)
        simp only [encryptBlockWords, hword, hinv, if_pos hwlt, h1, Option.map_some',
          hback]
        simp
      · intro x hx
        simp only [u32le, List.cons_append, List.nil_append, List.mem_cons] at hx
        rcases hx with rfl | rfl | rfl | rfl | h
        · omega
        · omega
        · omega
        · omega
        · exact h2 x h
      · simp [u32le, h3]
  | case2 off b0 b1 b2 b3 rest word encrypted_word hge =>
      intro e hb hlen henc
      simp only [encryptBlockWords, if_neg hge] at henc
      exact Option.noConfusion henc
  | case3 off =>
      intro e hb hlen henc
      simp only [encryptBlockWords] at henc
      obtain rfl : ([] : List Nat) = e := Option.some.inj henc
      simp [encryptBlockWords]
  | case4 t off hnot4 hnotnil =>
      intro e hb hlen henc
      -- unreachable: a list of length `% 4 = 0` is either empty or has
      -- at least four elements
      match t, hnot4, hnotnil with
      | [], _, h => exact absurd rfl h
      | [a], _, _ => simp at hlen
      | [a, b], _, _ => simp at hlen
      | [a, b, d], _, _ => simp at hlen
      | a :: b :: d :: f :: r, h4, _ => exact absurd rfl (h4 a b d f r)

/-- Round-trip of the block loop, carrying the length needed to re-enter
the loop. -/
theorem encryptBlocks_roundtrip (c : BekenCodeCipher) :
    ∀ (count : Nat) (data : List Nat) (off : Nat) (e : List Nat),
    (∀ x ∈ data, x < 256) →
    data.length = 32 * count →
    encryptBlocks c count data off = some e →
    encryptBlocks c count e off = some data ∧ e.length = data.length := by
  intro count
  induction count with
  | zero =>
      intro data off e hb hlen henc
      rw [encryptBlocks] at henc
      obtain rfl : ([] : List Nat) = e := Option.some.inj henc
      obtain rfl : data = [] := List.length_eq_zero.mp (by omega)
      exact ⟨rfl, rfl⟩
  | succ n ih =>
      intro data off e hb hlen henc
      rw [encryptBlocks] at henc
      simp only [Option.bind_eq_bind, Option.bind_eq_some, Option.pure_def,
        Option.some.injEq] at henc
      obtain ⟨eb, heb, rest, hrest, rfl⟩ := henc
      have hdlen : 32 ≤ data.length := by omega
      have htake : (data.take 32).length = 32 := by
        simp only [List.length_take]
        omega
      rw [encryptBlock, if_pos htake] at heb
      have hbtake : ∀ x ∈ data.take 32, x < 256 := fun x hx =>
        hb x (List.mem_of_mem_take hx)
      obtain ⟨hw1, hw2, hw3⟩ := encryptBlockWords_roundtrip c off (data.take 32) eb
        hbtake (by rw [htake]) heb
      have hbdrop : ∀ x ∈ data.drop 32, x < 256 := fun x hx =>
        hb x (List.mem_of_mem_drop hx)
      have hldrop : (data.drop 32).length = 32 * n := by
        simp only [List.length_drop]
        omega
      obtain ⟨hr1, hr2⟩ := ih (data.drop 32) (off + 32) rest hbdrop hldrop hrest
      have heblen : eb.length = 32 := by rw [hw3, htake]
      constructor
      · rw [encryptBlocks]
        have htk : (eb ++ rest).take 32 = eb := by
          rw [← heblen, List.take_left]
        have hdr : (eb ++ rest).drop 32 = rest := by
          rw [← heblen, List.drop_left]
        rw [htk, hdr, encryptBlock, if_pos heblen, hw1]
        simp only [Option.bind_eq_bind, Option.some_bind, hr1, Option.pure_def,
          Option.some.injEq]
        exact List.take_append_drop 32 data
      · simp only [List.length_append, heblen, hr2, List.length_drop]
        omega

end BekenCodeCipher

/-- C1. The code cipher is self-inverse wherever encryption succeeds — the
amended claim: for every byte string whose length is a multiple of 32, every
stream offset below 2^24, and any coefficients, IF `encrypt` returns a value
(no word overflowed `int.to_bytes(4)`), then `decrypt` of that value restores
the input. -/
theorem c1_code_cipher_self_inverse (c : BekenCodeCipher) (data e : List Nat)
    (off : Nat) (hbytes : ∀ x ∈ data, x < 256) (hoff : off < 16777216)
    (henc : c.encrypt data off = some e) :
    c.decrypt e off = some data := by
  rw [BekenCodeCipher.encrypt] at henc
  by_cases hlen : data.length % 32 = 0
  · rw [if_pos hlen] at henc
    have hcnt : data.length = 32 * (data.length / 32) :=
      (Nat.mul_div_cancel' (Nat.dvd_of_mod_eq_zero hlen)).symm
    obtain ⟨h1, h2⟩ :=
      BekenCodeCipher.encryptBlocks_roundtrip c (data.length / 32) data off e
        hbytes hcnt henc
    rw [BekenCodeCipher.decrypt, BekenCodeCipher.encrypt,
      if_pos (by rw [h2]; exact hlen), h2, h1]
  · rw [if_neg hlen] at henc
    exact Option.noConfusion henc

/-- C1 witness: the standard app-partition coefficients, 32 zero bytes at
stream offset `0x10000` (spec scenario 6). -/
theorem c1_code_cipher_self_inverse_witness :
    (BekenCodeCipher.mk 0x510FB093 0xA3CBEADC 0x5993A17E 0xC7ADEB03).decrypt
      [33, 7, 181, 126, 33, 15, 181, 126, 33, 23, 181, 126, 33, 31, 181, 126,
       33, 39, 181, 126, 33, 47, 181, 126, 33, 55, 181, 126, 33, 63, 181, 126]
      0x10000 = some (List.replicate 32 0) :=
  c1_code_cipher_self_inverse
    (BekenCodeCipher.mk 0x510FB093 0xA3CBEADC 0x5993A17E 0xC7ADEB03)
    (List.replicate 32 0) _ 0x10000 (by decide) (by decide) (by decide)

/-- C1 counterexample to the claim as stated: for the 32-bit coefficients
`(0, 0x676E0010, 0, 0x01000000)`, offset `0`, and 32 zero bytes, the first
masked word is `0x100000800 ≥ 2^32`, so `encrypt` raises `OverflowError` in
`int.to_bytes(4, "little")` instead of producing output, and
`decrypt(encrypt(b, off), off)` has no value at all. -/
theorem c1_counterexample :
    ((BekenCodeCipher.mk 0 0x676E0010 0 0x01000000).encrypt
        (List.replicate 32 0) 0).bind
      (fun e => (BekenCodeCipher.mk 0 0x676E0010 0 0x01000000).decrypt e 0) ≠
      some (List.replicate 32 0) ∧
    (BekenCodeCipher.mk 0 0x676E0010 0 0x01000000).encrypt
      (List.replicate 32 0) 0 = none := by
  constructor
  · decide
  · decide

/-- C3. `check_protocol` falls off the end of the function when the pair IS
in the protocol set: it returns Python `None` (embedded `none`), not `True`,
for `(ReadReg = 0x03, short)` under `FULL`; for a protocol lacking ReadReg
(`BASIC_TUYA`) it does return `False`. -/
theorem c3_check_protocol_returns_none :
    check_protocol ProtocolType.FULL 0x03 false = none ∧
    check_protocol ProtocolType.BASIC_TUYA 0x03 false = some false ∧
    check_protocol ProtocolType.UNKNOWN 0x03 false = some true := by
  refine ⟨by decide, by decide, by decide⟩

/-- C9. The derived KV-storage data key:
`data_key[i] = (KEY_PART_1[i mod 4] + KEY_PART_2[i] + inner_key[i]) mod 256`. -/
theorem c9_data_key_derivation (inner_key : List Nat) (i : Nat)
    (hlen : inner_key.length = 16) (hi : i < 16) :
    (makeDataKey inner_key).getD i 0 =
      (KEY_PART_1.getD (i % 4) 0 + KEY_PART_2.getD i 0 + inner_key.getD i 0) % 256 := by
  interval_cases i <;> rfl

/-- C9 witness at `inner_key = List.range 16`, `i = 5`. -/
theorem c9_data_key_derivation_witness :
    (makeDataKey (List.range 16)).getD 5 0 =
      (KEY_PART_1.getD (5 % 4) 0 + KEY_PART_2.getD 5 0 +
        (List.range 16).getD 5 0) % 256 :=
  c9_data_key_derivation (List.range 16) 5 (by decide) (by decide)

/-- The wraparound loop preserves `bypass = false` and records only reads
performed with the flag down. -/
theorem detectSizesLoop_inv (read4kDev : Nat → List Nat) (start_data : List Nat) :
    ∀ (sizes : List Nat) (st : DetectState), st.bypass = false →
    (∀ p ∈ st.trace, p.2 = false) →
    (detectSizesLoop read4kDev start_data sizes st).2.bypass = false ∧
      ∀ p ∈ (detectSizesLoop read4kDev start_data sizes st).2.trace, p.2 = false := by
  intro sizes
  induction sizes with
  | nil =>
      intro st hb ht
      exact ⟨hb, ht⟩
  | cons size rest ih =>
      intro st hb ht
      simp only [detectSizesLoop, detectRead]
      have htr : ∀ p ∈ st.trace ++ [(size + 0x11000, st.bypass)], p.2 = false := by
        intro p hp
        rcases List.mem_append.mp hp with h | h
        · exact ht p h
        · simp only [List.mem_singleton] at h
          rw [h]
          exact hb
      split
      · exact ⟨hb, htr⟩
      · exact ih ⟨st.bypass, st.trace ++ [(size + 0x11000, st.bypass)]⟩ hb htr

/-- C10. After every `flash_detect_size` call — detected or failed — the
session's `boot_protection_bypass` is forced to `true` (regardless of its
value before the call), and every probe read happened with the flag
`false`. -/
theorem c10_detect_size_forces_bypass (read4kDev : Nat → List Nat) (bypass0 : Bool) :
    (flash_detect_size read4kDev bypass0).2.bypass = true ∧
    ∀ p ∈ (flash_detect_size read4kDev bypass0).2.trace, p.2 = false := by
  refine ⟨rfl, ?_⟩
  intro p hp
  exact (detectSizesLoop_inv read4kDev (read4kDev 0x11000) DETECT_SIZES
    ⟨false, [(0x11000, false)]⟩ rfl (by simp)).2 p hp

/-- C2. `flash_read` computes `block_count` from `length` alone, ignoring the
start misalignment: requesting 4096 bytes at the unaligned address 1 loops
over a single 4 KiB page and yields only 4095 bytes of `[1, 4097)`, so
`flash_read_bytes`'s own `assert out.tell() == length` fails
(`AssertionError`, here `none`) — for every flash content `mem`. -/
theorem c2_flash_read_truncates_unaligned (mem : Nat → Nat) :
    flash_read_bytes mem 0x200000 1 4096 = none ∧
    (flash_read mem 0x200000 1 4096).map (fun chs => chs.flatten.length) =
      some 4095 := by
  have hchunk : (((read4k mem 0).drop 1).take 4096).length = 4095 := by
    simp [read4k]
  have hfr : flash_read mem 0x200000 1 4096 =
      some [((read4k mem 0).drop 1).take 4096] := rfl
  constructor
  · rw [flash_read_bytes, hfr]
    simp only [Option.some_bind, List.flatten, List.append_nil]
    rw [if_neg]
    omega
  · rw [hfr]
    simp only [Option.map_some', Option.some.injEq, List.flatten, List.append_nil]
    omega

theorem crc32_nil (c : Nat) : crc32 [] c = c := by
  simp only [crc32, List.foldl_nil, xor_xor_self]

/-- `strip(b"\xff")` leaves nothing exactly when every byte is `0xFF`. -/
theorem pyStripFF_eq_nil_iff (l : List Nat) :
    pyStripFF l = [] ↔ l.all (· == 255) := by
  rw [pyStripFF, List.reverse_eq_nil_iff, List.dropWhile_eq_nil_iff, List.all_eq_true]
  constructor
  · intro h x hx
    rcases List.mem_append.mp
        ((List.takeWhile_append_dropWhile (p := (· == 255)) (l := l)) ▸ hx) with
      hx' | hx'
    · exact List.mem_takeWhile_imp (p := fun y => y == 255) hx'
    · exact h x (List.mem_reverse.mpr hx')
  · intro h x hx
    exact h x ((List.dropWhile_sublist _).subset (List.mem_reverse.mp hx))

/-- C7. The 4 KiB loop of `program_flash` issues, for each 4096-byte chunk in
order, an erase of its sector, followed by a 4K write unless the chunk is
entirely `0xFF`; the running CRC-32 is folded over every chunk either way, so
the final value is the CRC-32 of the whole stream continued from the initial
value. -/
theorem c7_program_flash_loop (stream : List Nat) (addr crc0 : Nat) :
    programFlashGo stream addr (addr + stream.length) crc0 =
      (programFlashSpecTrace stream addr, crc32 stream crc0) := by
  suffices H : ∀ (n : Nat) (s : List Nat) (a c : Nat), s.length ≤ n →
      programFlashGo s a (a + s.length) c =
        (programFlashSpecTrace s a, crc32 s c) from
    H stream.length stream addr crc0 le_rfl
  intro n
  induction n with
  | zero =>
      intro s a c hle
      obtain rfl : s = [] := List.length_eq_zero.mp (Nat.le_zero.mp hle)
      rw [programFlashGo, programFlashSpecTrace]
      simp [crc32_nil]
  | succ n ih =>
      intro s a c hle
      by_cases hs : s = []
      · subst hs
        rw [programFlashGo, programFlashSpecTrace]
        simp [crc32_nil]
      · have hlen : s.length ≠ 0 := fun h => hs (List.length_eq_zero.mp h)
        have haddr : a < a + s.length := by omega
        have htail : (s.drop 4096).length ≤ n := by
          have h4 : (s.drop 4096).length = s.length - 4096 := List.length_drop 4096 s
          omega
        have hblock : (s.take 4096).length ≠ 0 := by
          simp only [List.length_take]
          omega
        have hEnd : a + s.length = (a + (s.take 4096).length) + (s.drop 4096).length := by
          simp only [List.length_take, List.length_drop]
          omega
        have hcrc : crc32 (s.drop 4096) (crc32 (s.take 4096) c) = crc32 s c := by
          rw [crc32_append, List.take_append_drop]
        have hspec : programFlashSpecTrace s a =
            (PCmd.erase a ::
              (if (s.take 4096).all (· == 255) then []
               else [PCmd.write a (s.take 4096)])) ++
              programFlashSpecTrace (s.drop 4096) (a + (s.take 4096).length) := by
          rw [programFlashSpecTrace,
            if_neg (by simpa [List.isEmpty_iff] using hs)]
        have hiff : ((pyStripFF (s.take 4096)).length = 0) ↔
            ((s.take 4096).all (· == 255) = true) := by
          rw [List.length_eq_zero]
          exact pyStripFF_eq_nil_iff _
        rw [programFlashGo]
        simp only [if_pos haddr, if_neg hblock]
        rw [hEnd]
        rw [ih (s.drop 4096) (a + (s.take 4096).length) (crc32 (s.take 4096) c) htail]
        rw [hspec, ← hcrc]
        exact congrArg (fun t => (PCmd.erase a :: t ++
          programFlashSpecTrace (s.drop 4096) (a + (s.take 4096).length),
          crc32 (s.drop 4096) (crc32 (s.take 4096) c)))
          (if_congr hiff rfl rfl)

/-- One 32-byte step for evaluating `crc32` of a long constant block. -/
theorem crc32_ff_step (n v w : Nat)
    (h1 : crc32 (List.replicate n 255) 0 = v)
    (h2 : crc32 (List.replicate 32 255) v = w) :
    crc32 (List.replicate (n + 32) 255) 0 = w := by
  rw [List.replicate_add, ← crc32_append, h1, h2]

/-- `crc32` of 4096 `0xFF` bytes is the constant `CRC32_FF_4K = 0xF154670A`,
evaluated in 32-byte steps via `crc32_append`. -/
theorem crc32_ff_4096 : crc32 (List.replicate 4096 255) 0 = CRC32_FF_4K := by
  have h0 : crc32 (List.replicate 32 255) 0 = 0xFF6CAB0B := by decide
  have h1 : crc32 (List.replicate 64 255) 0 = 0x0F6187BA :=
    crc32_ff_step 32 0xFF6CAB0B 0x0F6187BA h0 (by decide)
  have h2 : crc32 (List.replicate 96 255) 0 = 0x46D91CD0 :=
    crc32_ff_step 64 0x0F6187BA 0x46D91CD0 h1 (by decide)
  have h3 : crc32 (List.replicate 128 255) 0 = 0x652D544C :=
    crc32_ff_step 96 0x46D91CD0 0x652D544C h2 (by decide)
  have h4 : crc32 (List.replicate 160 255) 0 = 0x421BB803 :=
    crc32_ff_step 128 0x652D544C 0x421BB803 h3 (by decide)
  have h5 : crc32 (List.replicate 192 255) 0 = 0x0A0B8E4D :=
    crc32_ff_step 160 0x421BB803 0x0A0B8E4D h4 (by decide)
  have h6 : crc32 (List.replicate 224 255) 0 = 0xB2163262 :=
    crc32_ff_step 192 0x0A0B8E4D 0xB2163262 h5 (by decide)
  have h7 : crc32 (List.replicate 256 255) 0 = 0xFEA8A821 :=
    crc32_ff_step 224 0xB2163262 0xFEA8A821 h6 (by decide)
  have h8 : crc32 (List.replicate 288 255) 0 = 0x46EC1585 :=
    crc32_ff_step 256 0xFEA8A821 0x46EC1585 h7 (by decide)
  have h9 : crc32 (List.replicate 320 255) 0 = 0xA84E1BF6 :=
    crc32_ff_step 288 0x46EC1585 0xA84E1BF6 h8 (by decide)
  have h10 : crc32 (List.replicate 352 255) 0 = 0xB8A43737 :=
    crc32_ff_step 320 0xA84E1BF6 0xB8A43737 h9 (by decide)
  have h11 : crc32 (List.replicate 384 255) 0 = 0x93193017 :=
    crc32_ff_step 352 0xB8A43737 0x93193017 h10 (by decide)
  have h12 : crc32 (List.replicate 416 255) 0 = 0x090A1CCA :=
    crc32_ff_step 384 0x93193017 0x090A1CCA h11 (by decide)
  have h13 : crc32 (List.replicate 448 255) 0 = 0x94A1F2ED :=
    crc32_ff_step 416 0x090A1CCA 0x94A1F2ED h12 (by decide)
  have h14 : crc32 (List.replicate 480 255) 0 = 0x0CDE7D90 :=
    crc32_ff_step 448 0x94A1F2ED 0x0CDE7D90 h13 (by decide)
  have h15 : crc32 (List.replicate 512 255) 0 = 0xBD7BC39F :=
    crc32_ff_step 480 0x0CDE7D90 0xBD7BC39F h14 (by decide)
  have h16 : crc32 (List.replicate 544 255) 0 = 0x83A2FFBF :=
    crc32_ff_step 512 0xBD7BC39F 0x83A2FFBF h15 (by decide)
  have h17 : crc32 (List.replicate 576 255) 0 = 0x2E6F0975 :=
    crc32_ff_step 544 0x83A2FFBF 0x2E6F0975 h16 (by decide)
  have h18 : crc32 (List.replicate 608 255) 0 = 0xC97A2249 :=
    crc32_ff_step 576 0x2E6F0975 0xC97A2249 h17 (by decide)
  have h19 : crc32 (List.replicate 640 255) 0 = 0x1DCED933 :=
    crc32_ff_step 608 0xC97A2249 0x1DCED933 h18 (by decide)
  have h20 : crc32 (List.replicate 672 255) 0 = 0x131DC738 :=
    crc32_ff_step 640 0x1DCED933 0x131DC738 h19 (by decide)
  have h21 : crc32 (List.replicate 704 255) 0 = 0xA4B55457 :=
    crc32_ff_step 672 0x131DC738 0xA4B55457 h20 (by decide)
  have h22 : crc32 (List.replicate 736 255) 0 = 0xF484BECD :=
    crc32_ff_step 704 0xA4B55457 0xF484BECD h21 (by decide)
  have h23 : crc32 (List.replicate 768 255) 0 = 0xF9BE48FC :=
    crc32_ff_step 736 0xF484BECD 0xF9BE48FC h22 (by decide)
  have h24 : crc32 (List.replicate 800 255) 0 = 0xBA33B6FC :=
    crc32_ff_step 768 0xF9BE48FC 0xBA33B6FC h23 (by decide)
  have h25 : crc32 (List.replicate 832 255) 0 = 0x042992A5 :=
    crc32_ff_step 800 0xBA33B6FC 0x042992A5 h24 (by decide)
  have h26 : crc32 (List.replicate 864 255) 0 = 0xF064D4FB :=
    crc32_ff_step 832 0x042992A5 0xF064D4FB h25 (by decide)
  have h27 : crc32 (List.replicate 896 255) 0 = 0x6A8A5F7F :=
    crc32_ff_step 864 0xF064D4FB 0x6A8A5F7F h26 (by decide)
  have h28 : crc32 (List.replicate 928 255) 0 = 0xF13B8DCD :=
    crc32_ff_step 896 0x6A8A5F7F 0xF13B8DCD h27 (by decide)
  have h29 : crc32 (List.replicate 960 255) 0 = 0x1AEE44A6 :=
    crc32_ff_step 928 0xF13B8DCD 0x1AEE44A6 h28 (by decide)
  have h30 : crc32 (List.replicate 992 255) 0 = 0xC5684129 :=
    crc32_ff_step 960 0x1AEE44A6 0xC5684129 h29 (by decide)
  have h31 : crc32 (List.replicate 1024 255) 0 = 0xB83AFFF4 :=
    crc32_ff_step 992 0xC5684129 0xB83AFFF4 h30 (by decide)
  have h32 : crc32 (List.replicate 1056 255) 0 = 0x53E47F2B :=
    crc32_ff_step 1024 0xB83AFFF4 0x53E47F2B h31 (by decide)
  have h33 : crc32 (List.replicate 1088 255) 0 = 0x3ADF097F :=
    crc32_ff_step 1056 0x53E47F2B 0x3ADF097F h32 (by decide)
  have h34 : crc32 (List.replicate 1120 255) 0 = 0x63BA5C48 :=
    crc32_ff_step 1088 0x3ADF097F 0x63BA5C48 h33 (by decide)
  have h35 : crc32 (List.replicate 1152 255) 0 = 0x21824D90 :=
    crc32_ff_step 1120 0x63BA5C48 0x21824D90 h34 (by decide)
  have h36 : crc32 (List.replicate 1184 255) 0 = 0xB9046898 :=
    crc32_ff_step 1152 0x21824D90 0xB9046898 h35 (by decide)
  have h37 : crc32 (List.replicate 1216 255) 0 = 0x15539893 :=
    crc32_ff_step 1184 0xB9046898 0x15539893 h36 (by decide)
  have h38 : crc32 (List.replicate 1248 255) 0 = 0xD8BDD9AA :=
    crc32_ff_step 1216 0x15539893 0xD8BDD9AA h37 (by decide)
  have h39 : crc32 (List.replicate 1280 255) 0 = 0x94AF80BC :=
    crc32_ff_step 1248 0xD8BDD9AA 0x94AF80BC h38 (by decide)
  have h40 : crc32 (List.replicate 1312 255) 0 = 0xDF298157 :=
    crc32_ff_step 1280 0x94AF80BC 0xDF298157 h39 (by decide)
  have h41 : crc32 (List.replicate 1344 255) 0 = 0x9B7D72E8 :=
    crc32_ff_step 1312 0xDF298157 0x9B7D72E8 h40 (by decide)
  have h42 : crc32 (List.replicate 1376 255) 0 = 0x5E5F6B73 :=
    crc32_ff_step 1344 0x9B7D72E8 0x5E5F6B73 h41 (by decide)
  have h43 : crc32 (List.replicate 1408 255) 0 = 0x22C32BE8 :=
    crc32_ff_step 1376 0x5E5F6B73 0x22C32BE8 h42 (by decide)
  have h44 : crc32 (List.replicate 1440 255) 0 = 0xA7F37C3B :=
    crc32_ff_step 1408 0x22C32BE8 0xA7F37C3B h43 (by decide)
  have h45 : crc32 (List.replicate 1472 255) 0 = 0x6DF57B39 :=
    crc32_ff_step 1440 0xA7F37C3B 0x6DF57B39 h44 (by decide)
  have h46 : crc32 (List.replicate 1504 255) 0 = 0x07C592B8 :=
    crc32_ff_step 1472 0x6DF57B39 0x07C592B8 h45 (by decide)
  have h47 : crc32 (List.replicate 1536 255) 0 = 0x2A1E0A54 :=
    crc32_ff_step 1504 0x07C592B8 0x2A1E0A54 h46 (by decide)
  have h48 : crc32 (List.replicate 1568 255) 0 = 0xF3C1F0D4 :=
    crc32_ff_step 1536 0x2A1E0A54 0xF3C1F0D4 h47 (by decide)
  have h49 : crc32 (List.replicate 1600 255) 0 = 0x8F1A8B9B :=
    crc32_ff_step 1568 0xF3C1F0D4 0x8F1A8B9B h48 (by decide)
  have h50 : crc32 (List.replicate 1632 255) 0 = 0xD951D59C :=
    crc32_ff_step 1600 0x8F1A8B9B 0xD951D59C h49 (by decide)
  have h51 : crc32 (List.replicate 1664 255) 0 = 0xD4C3E8AE :=
    crc32_ff_step 1632 0xD951D59C 0xD4C3E8AE h50 (by decide)
  have h52 : crc32 (List.replicate 1696 255) 0 = 0xC343A23B :=
    crc32_ff_step 1664 0xD4C3E8AE 0xC343A23B h51 (by decide)
  have h53 : crc32 (List.replicate 1728 255) 0 = 0x944463D8 :=
    crc32_ff_step 1696 0xC343A23B 0x944463D8 h52 (by decide)
  have h54 : crc32 (List.replicate 1760 255) 0 = 0x50B5C899 :=
    crc32_ff_step 1728 0x944463D8 0x50B5C899 h53 (by decide)
  have h55 : crc32 (List.replicate 1792 255) 0 = 0xE10AF8F4 :=
    crc32_ff_step 1760 0x50B5C899 0xE10AF8F4 h54 (by decide)
  have h56 : crc32 (List.replicate 1824 255) 0 = 0xD7C50E4E :=
    crc32_ff_step 1792 0xE10AF8F4 0xD7C50E4E h55 (by decide)
  have h57 : crc32 (List.replicate 1856 255) 0 = 0x7AE1B598 :=
    crc32_ff_step 1824 0xD7C50E4E 0x7AE1B598 h56 (by decide)
  have h58 : crc32 (List.replicate 1888 255) 0 = 0x93E0743A :=
    crc32_ff_step 1856 0x7AE1B598 0x93E0743A h57 (by decide)
  have h59 : crc32 (List.replicate 1920 255) 0 = 0xD81BD29E :=
    crc32_ff_step 1888 0x93E0743A 0xD81BD29E h58 (by decide)
  have h60 : crc32 (List.replicate 1952 255) 0 = 0xFFC088F0 :=
    crc32_ff_step 1920 0xD81BD29E 0xFFC088F0 h59 (by decide)
  have h61 : crc32 (List.replicate 1984 255) 0 = 0x9025E723 :=
    crc32_ff_step 1952 0xFFC088F0 0x9025E723 h60 (by decide)
  have h62 : crc32 (List.replicate 2016 255) 0 = 0x754356F1 :=
    crc32_ff_step 1984 0x9025E723 0x754356F1 h61 (by decide)
  have h63 : crc32 (List.replicate 2048 255) 0 = 0x3F55D17F :=
    crc32_ff_step 2016 0x754356F1 0x3F55D17F h62 (by decide)
  have h64 : crc32 (List.replicate 2080 255) 0 = 0xAE8E51E0 :=
    crc32_ff_step 2048 0x3F55D17F 0xAE8E51E0 h63 (by decide)
  have h65 : crc32 (List.replicate 2112 255) 0 = 0x31792B4B :=
    crc32_ff_step 2080 0xAE8E51E0 0x31792B4B h64 (by decide)
  have h66 : crc32 (List.replicate 2144 255) 0 = 0x7D5548F2 :=
    crc32_ff_step 2112 0x31792B4B 0x7D5548F2 h65 (by decide)
  have h67 : crc32 (List.replicate 2176 255) 0 = 0x1E29D32E :=
    crc32_ff_step 2144 0x7D5548F2 0x1E29D32E h66 (by decide)
  have h68 : crc32 (List.replicate 2208 255) 0 = 0xDF40B5A4 :=
    crc32_ff_step 2176 0x1E29D32E 0xDF40B5A4 h67 (by decide)
  have h69 : crc32 (List.replicate 2240 255) 0 = 0xC54544F1 :=
    crc32_ff_step 2208 0xDF40B5A4 0xC54544F1 h68 (by decide)
  have h70 : crc32 (List.replicate 2272 255) 0 = 0xF8EC2B1D :=
    crc32_ff_step 2240 0xC54544F1 0xF8EC2B1D h69 (by decide)
  have h71 : crc32 (List.replicate 2304 255) 0 = 0x86A26AC7 :=
    crc32_ff_step 2272 0xF8EC2B1D 0x86A26AC7 h70 (by decide)
  have h72 : crc32 (List.replicate 2336 255) 0 = 0x6EAA394A :=
    crc32_ff_step 2304 0x86A26AC7 0x6EAA394A h71 (by decide)
  have h73 : crc32 (List.replicate 2368 255) 0 = 0xCEF26DE6 :=
    crc32_ff_step 2336 0x6EAA394A 0xCEF26DE6 h72 (by decide)
  have h74 : crc32 (List.replicate 2400 255) 0 = 0x3D354A3B :=
    crc32_ff_step 2368 0xCEF26DE6 0x3D354A3B h73 (by decide)
  have h75 : crc32 (List.replicate 2432 255) 0 = 0x012E4F04 :=
    crc32_ff_step 2400 0x3D354A3B 0x012E4F04 h74 (by decide)
  have h76 : crc32 (List.replicate 2464 255) 0 = 0xED9DA04D :=
    crc32_ff_step 2432 0x012E4F04 0xED9DA04D h75 (by decide)
  have h77 : crc32 (List.replicate 2496 255) 0 = 0x938DD642 :=
    crc32_ff_step 2464 0xED9DA04D 0x938DD642 h76 (by decide)
  have h78 : crc32 (List.replicate 2528 255) 0 = 0x617EAD76 :=
    crc32_ff_step 2496 0x938DD642 0x617EAD76 h77 (by decide)
  have h79 : crc32 (List.replicate 2560 255) 0 = 0x44C1C995 :=
    crc32_ff_step 2528 0x617EAD76 0x44C1C995 h78 (by decide)
  have h80 : crc32 (List.replicate 2592 255) 0 = 0xD4A3EFE0 :=
    crc32_ff_step 2560 0x44C1C995 0xD4A3EFE0 h79 (by decide)
  have h81 : crc32 (List.replicate 2624 255) 0 = 0xCDD32E8E :=
    crc32_ff_step 2592 0xD4A3EFE0 0xCDD32E8E h80 (by decide)
  have h82 : crc32 (List.replicate 2656 255) 0 = 0xF576E9C8 :=
    crc32_ff_step 2624 0xCDD32E8E 0xF576E9C8 h81 (by decide)
  have h83 : crc32 (List.replicate 2688 255) 0 = 0x138F3970 :=
    crc32_ff_step 2656 0xF576E9C8 0x138F3970 h82 (by decide)
  have h84 : crc32 (List.replicate 2720 255) 0 = 0xA2DF217E :=
    crc32_ff_step 2688 0x138F3970 0xA2DF217E h83 (by decide)
  have h85 : crc32 (List.replicate 2752 255) 0 = 0x27A53602 :=
    crc32_ff_step 2720 0xA2DF217E 0x27A53602 h84 (by decide)
  have h86 : crc32 (List.replicate 2784 255) 0 = 0x3135ABC1 :=
    crc32_ff_step 2752 0x27A53602 0x3135ABC1 h85 (by decide)
  have h87 : crc32 (List.replicate 2816 255) 0 = 0x834B1317 :=
    crc32_ff_step 2784 0x3135ABC1 0x834B1317 h86 (by decide)
  have h88 : crc32 (List.replicate 2848 255) 0 = 0x8B8AB886 :=
    crc32_ff_step 2816 0x834B1317 0x8B8AB886 h87 (by decide)
  have h89 : crc32 (List.replicate 2880 255) 0 = 0x4B978AE2 :=
    crc32_ff_step 2848 0x8B8AB886 0x4B978AE2 h88 (by decide)
  have h90 : crc32 (List.replicate 2912 255) 0 = 0x9F5DB83F :=
    crc32_ff_step 2880 0x4B978AE2 0x9F5DB83F h89 (by decide)
  have h91 : crc32 (List.replicate 2944 255) 0 = 0xA9531F5A :=
    crc32_ff_step 2912 0x9F5DB83F 0xA9531F5A h90 (by decide)
  have h92 : crc32 (List.replicate 2976 255) 0 = 0x27A28498 :=
    crc32_ff_step 2944 0xA9531F5A 0x27A28498 h91 (by decide)
  have h93 : crc32 (List.replicate 3008 255) 0 = 0x4259134E :=
    crc32_ff_step 2976 0x27A28498 0x4259134E h92 (by decide)
  have h94 : crc32 (List.replicate 3040 255) 0 = 0x01813C7A :=
    crc32_ff_step 3008 0x4259134E 0x01813C7A h93 (by decide)
  have h95 : crc32 (List.replicate 3072 255) 0 = 0xBD8538D6 :=
    crc32_ff_step 3040 0x01813C7A 0xBD8538D6 h94 (by decide)
  have h96 : crc32 (List.replicate 3104 255) 0 = 0x7186D8C5 :=
    crc32_ff_step 3072 0xBD8538D6 0x7186D8C5 h95 (by decide)
  have h97 : crc32 (List.replicate 3136 255) 0 = 0x95A42AA6 :=
    crc32_ff_step 3104 0x7186D8C5 0x95A42AA6 h96 (by decide)
  have h98 : crc32 (List.replicate 3168 255) 0 = 0x753DCE0D :=
    crc32_ff_step 3136 0x95A42AA6 0x753DCE0D h97 (by decide)
  have h99 : crc32 (List.replicate 3200 255) 0 = 0xAA3EDCB4 :=
    crc32_ff_step 3168 0x753DCE0D 0xAA3EDCB4 h98 (by decide)
  have h100 : crc32 (List.replicate 3232 255) 0 = 0x836152F0 :=
    crc32_ff_step 3200 0xAA3EDCB4 0x836152F0 h99 (by decide)
  have h101 : crc32 (List.replicate 3264 255) 0 = 0x3693CB2B :=
    crc32_ff_step 3232 0x836152F0 0x3693CB2B h100 (by decide)
  have h102 : crc32 (List.replicate 3296 255) 0 = 0x5E6DC8D0 :=
    crc32_ff_step 3264 0x3693CB2B 0x5E6DC8D0 h101 (by decide)
  have h103 : crc32 (List.replicate 3328 255) 0 = 0xD8C45F4D :=
    crc32_ff_step 3296 0x5E6DC8D0 0xD8C45F4D h102 (by decide)
  have h104 : crc32 (List.replicate 3360 255) 0 = 0x3CA5CF33 :=
    crc32_ff_step 3328 0xD8C45F4D 0x3CA5CF33 h103 (by decide)
  have h105 : crc32 (List.replicate 3392 255) 0 = 0xEB1A48F5 :=
    crc32_ff_step 3360 0x3CA5CF33 0xEB1A48F5 h104 (by decide)
  have h106 : crc32 (List.replicate 3424 255) 0 = 0xC9E2A0F9 :=
    crc32_ff_step 3392 0xEB1A48F5 0xC9E2A0F9 h105 (by decide)
  have h107 : crc32 (List.replicate 3456 255) 0 = 0xAA0873F7 :=
    crc32_ff_step 3424 0xC9E2A0F9 0xAA0873F7 h106 (by decide)
  have h108 : crc32 (List.replicate 3488 255) 0 = 0x61595E87 :=
    crc32_ff_step 3456 0xAA0873F7 0x61595E87 h107 (by decide)
  have h109 : crc32 (List.replicate 3520 255) 0 = 0xB2568390 :=
    crc32_ff_step 3488 0x61595E87 0xB2568390 h108 (by decide)
  have h110 : crc32 (List.replicate 3552 255) 0 = 0x9FCC248E :=
    crc32_ff_step 3520 0xB2568390 0x9FCC248E h109 (by decide)
  have h111 : crc32 (List.replicate 3584 255) 0 = 0x5448F443 :=
    crc32_ff_step 3552 0x9FCC248E 0x5448F443 h110 (by decide)
  have h112 : crc32 (List.replicate 3616 255) 0 = 0x07F35A28 :=
    crc32_ff_step 3584 0x5448F443 0x07F35A28 h111 (by decide)
  have h113 : crc32 (List.replicate 3648 255) 0 = 0xA3ED120D :=
    crc32_ff_step 3616 0x07F35A28 0xA3ED120D h112 (by decide)
  have h114 : crc32 (List.replicate 3680 255) 0 = 0xCC1CC512 :=
    crc32_ff_step 3648 0xA3ED120D 0xCC1CC512 h113 (by decide)
  have h115 : crc32 (List.replicate 3712 255) 0 = 0x25D8800D :=
    crc32_ff_step 3680 0xCC1CC512 0x25D8800D h114 (by decide)
  have h116 : crc32 (List.replicate 3744 255) 0 = 0x01496E3D :=
    crc32_ff_step 3712 0x25D8800D 0x01496E3D h115 (by decide)
  have h117 : crc32 (List.replicate 3776 255) 0 = 0x9DE8F14D :=
    crc32_ff_step 3744 0x01496E3D 0x9DE8F14D h116 (by decide)
  have h118 : crc32 (List.replicate 3808 255) 0 = 0x1E83F9BF :=
    crc32_ff_step 3776 0x9DE8F14D 0x1E83F9BF h117 (by decide)
  have h119 : crc32 (List.replicate 3840 255) 0 = 0x24986E63 :=
    crc32_ff_step 3808 0x1E83F9BF 0x24986E63 h118 (by decide)
  have h120 : crc32 (List.replicate 3872 255) 0 = 0xD8C86504 :=
    crc32_ff_step 3840 0x24986E63 0xD8C86504 h119 (by decide)
  have h121 : crc32 (List.replicate 3904 255) 0 = 0x11F9D113 :=
    crc32_ff_step 3872 0xD8C86504 0x11F9D113 h120 (by decide)
  have h122 : crc32 (List.replicate 3936 255) 0 = 0x8334162F :=
    crc32_ff_step 3904 0x11F9D113 0x8334162F h121 (by decide)
  have h123 : crc32 (List.replicate 3968 255) 0 = 0x7EAC710A :=
    crc32_ff_step 3936 0x8334162F 0x7EAC710A h122 (by decide)
  have h124 : crc32 (List.replicate 4000 255) 0 = 0xCC3A6F3D :=
    crc32_ff_step 3968 0x7EAC710A 0xCC3A6F3D h123 (by decide)
  have h125 : crc32 (List.replicate 4032 255) 0 = 0x5F3DB3E5 :=
    crc32_ff_step 4000 0xCC3A6F3D 0x5F3DB3E5 h124 (by decide)
  have h126 : crc32 (List.replicate 4064 255) 0 = 0xF6A836D1 :=
    crc32_ff_step 4032 0x5F3DB3E5 0xF6A836D1 h125 (by decide)
  have h127 : crc32 (List.replicate 4096 255) 0 = 0xF154670A :=
    crc32_ff_step 4064 0xF6A836D1 0xF154670A h126 (by decide)
  exact h127

/-- When the first attempt of `flash_erase_block` succeeds, the retry loop
returns it unchanged. -/
theorem eraseLoop_of_ok {σ : Type} (M : DevModel σ) (fuel : Nat) (s : σ)
    (checked : Bool) (size : EraseSize) (start : Nat)
    (h : (eraseAttempt M s checked size start).ok = true) :
    eraseLoop M fuel s checked size start = eraseAttempt M s checked size start := by
  rw [eraseLoop.eq_def]
  simp only [h, if_true]

/-- If the device never reports an all-`0xFF` CRC for the sector, every
verify attempt fails and the loop keeps failing for any fuel. -/
theorem eraseLoop_fail {σ : Type} (M : DevModel σ) (start : Nat)
    (hcrc : ∀ t : σ, M.crc t start (start + 0x1000) ≠ CRC32_FF_4K) :
    ∀ (fuel : Nat) (s : σ),
    (eraseLoop M fuel s false EraseSize.SECTOR_4K start).ok = false := by
  have hatt : ∀ s : σ,
      eraseAttempt M s false EraseSize.SECTOR_4K start =
        ⟨M.erase s 0x20 start,
          ECmd.crcQuery start (start + 0x1000) :: [ECmd.eraseCmnd 0x20 start] ++
            [ECmd.crcQuery start (start + 0x1000)], false, false⟩ := by
    intro s
    rw [eraseAttempt]
    simp only [Bool.not_false, if_true, ne_eq, not_true_eq_false, if_false,
      doEraseVerify, doErase, EraseSize.val]
    rw [if_neg (hcrc s), if_pos (hcrc (M.erase s 0x20 start))]
  intro fuel
  induction fuel with
  | zero =>
      intro s
      rw [eraseLoop.eq_def, hatt]
      simp
  | succ n ih =>
      intro s
      rw [eraseLoop.eq_def, hatt]
      simp only [if_false]
      exact ih (M.erase s 0x20 start)

/-- C4. Verified erase, as a conjunction over an arbitrary device model:
(1) `CRC32_FF_4K` is the CRC-32 of 4096 `0xFF` bytes;
(2) with the latch clear, a 4K erase whose pre-CRC already equals
`CRC32_FF_4K` issues only the CRC read — no erase — and leaves the
latch clear;
(3) with the latch clear and a dirty sector, the sequence is CRC read,
erase, CRC read; on an all-`0xFF` post-CRC the call succeeds and the
latch is set;
(4) a 64 KiB block erase is never verified: it issues only the erase;
(5) with the latch set, any erase issues only the erase command (no
verification round-trip);
(6) if the device never reports an all-`0xFF` CRC, the verified 4K erase
fails (after exhausting its retries). -/
theorem c4_verified_erase {σ : Type} (M : DevModel σ) (s : σ) (start : Nat)
    (size : EraseSize) :
    (crc32 (List.replicate 4096 255) 0 = CRC32_FF_4K) ∧
    (M.crc s start (start + 0x1000) = CRC32_FF_4K →
      flash_erase_block M s false EraseSize.SECTOR_4K start =
        ⟨s, [ECmd.crcQuery start (start + 0x1000)], true, false⟩) ∧
    (M.crc s start (start + 0x1000) ≠ CRC32_FF_4K →
      M.crc (M.erase s 0x20 start) start (start + 0x1000) = CRC32_FF_4K →
      flash_erase_block M s false EraseSize.SECTOR_4K start =
        ⟨M.erase s 0x20 start,
          [ECmd.crcQuery start (start + 0x1000), ECmd.eraseCmnd 0x20 start,
            ECmd.crcQuery start (start + 0x1000)], true, true⟩) ∧
    (flash_erase_block M s false EraseSize.BLOCK_64K start =
      ⟨M.erase s 0xD8 start, [ECmd.eraseCmnd 0xD8 start], true, false⟩) ∧
    (flash_erase_block M s true size start =
      ⟨M.erase s size.val start, [ECmd.eraseCmnd size.val start], true, true⟩) ∧
    ((∀ t : σ, M.crc t start (start + 0x1000) ≠ CRC32_FF_4K) →
      (flash_erase_block M s false EraseSize.SECTOR_4K start).ok = false) := by
  refine ⟨crc32_ff_4096, ?_, ?_, ?_, ?_, ?_⟩
  · intro hpre
    have hatt : eraseAttempt M s false EraseSize.SECTOR_4K start =
        ⟨s, [ECmd.crcQuery start (start + 0x1000)], true, false⟩ := by
      rw [eraseAttempt]
      simp only [Bool.not_false, if_true, ne_eq, not_true_eq_false, if_false,
        doEraseVerify]
      rw [if_pos hpre]
    rw [flash_erase_block, eraseLoop_of_ok M WRITE_RETRIES s false
      EraseSize.SECTOR_4K start (by rw [hatt]), hatt]
  · intro hpre hpost
    have hatt : eraseAttempt M s false EraseSize.SECTOR_4K start =
        ⟨M.erase s 0x20 start,
          [ECmd.crcQuery start (start + 0x1000), ECmd.eraseCmnd 0x20 start,
            ECmd.crcQuery start (start + 0x1000)], true, true⟩ := by
      rw [eraseAttempt]
      simp only [Bool.not_false, if_true, ne_eq, not_true_eq_false, if_false,
        doEraseVerify, doErase, EraseSize.val]
      rw [if_neg hpre, if_neg (by simpa using hpost)]
      rfl
    rw [flash_erase_block, eraseLoop_of_ok M WRITE_RETRIES s false
      EraseSize.SECTOR_4K start (by rw [hatt]), hatt]
  · have hatt : eraseAttempt M s false EraseSize.BLOCK_64K start =
        ⟨M.erase s 0xD8 start, [ECmd.eraseCmnd 0xD8 start], true, false⟩ := by
      rw [eraseAttempt]
      simp [doErase, EraseSize.val]
    rw [flash_erase_block, eraseLoop_of_ok M WRITE_RETRIES s false
      EraseSize.BLOCK_64K start (by rw [hatt]), hatt]
  · have hatt : eraseAttempt M s true size start =
        ⟨M.erase s size.val start, [ECmd.eraseCmnd size.val start], true, true⟩ := by
      rw [eraseAttempt]
      simp [doErase]
    rw [flash_erase_block, eraseLoop_of_ok M WRITE_RETRIES s true
      size start (by rw [hatt]), hatt]
  · intro hcrc
    rw [flash_erase_block]
    exact eraseLoop_fail M start hcrc WRITE_RETRIES s

/-- C4 witness: a two-state device (`Bool`: erased or not). With responses
`crc = 0` when not erased and `CRC32_FF_4K` when erased, the dirty-sector
scenario runs CRC-erase-CRC and latches; with constant `CRC32_FF_4K`
responses the erase is skipped; with constant `0` responses the call fails;
64 KiB and latched erases issue only the erase command. -/
theorem c4_verified_erase_witness :
    (flash_erase_block
        ⟨fun t _ _ => if t then CRC32_FF_4K else 0, fun _ _ _ => true⟩
        false false EraseSize.SECTOR_4K 0x1000 =
      ⟨true, [ECmd.crcQuery 0x1000 0x2000, ECmd.eraseCmnd 0x20 0x1000,
        ECmd.crcQuery 0x1000 0x2000], true, true⟩) ∧
    (flash_erase_block
        ⟨fun _ _ _ => CRC32_FF_4K, fun t _ _ => t⟩
        false false EraseSize.SECTOR_4K 0x1000 =
      ⟨false, [ECmd.crcQuery 0x1000 0x2000], true, false⟩) ∧
    (flash_erase_block ⟨fun _ _ _ => 0, fun t _ _ => t⟩
        (false : Bool) false EraseSize.SECTOR_4K 0x1000).ok = false ∧
    (flash_erase_block ⟨fun _ _ _ => 0, fun t _ _ => t⟩
        (false : Bool) true EraseSize.BLOCK_64K 0x1000 =
      ⟨false, [ECmd.eraseCmnd 0xD8 0x1000], true, true⟩) := by
  refine ⟨?_, ?_, ?_, ?_⟩
  · exact ((c4_verified_erase
        ⟨fun t _ _ => if t then CRC32_FF_4K else 0, fun _ _ _ => true⟩
        false 0x1000 EraseSize.SECTOR_4K).2.2.1 (by decide) (by decide))
  · exact ((c4_verified_erase
        ⟨fun _ _ _ => CRC32_FF_4K, fun t _ _ => t⟩
        false 0x1000 EraseSize.SECTOR_4K).2.1 (by decide))
  · exact ((c4_verified_erase ⟨fun _ _ _ => 0, fun t _ _ => t⟩
        false 0x1000 EraseSize.SECTOR_4K).2.2.2.2.2 (by decide))
  · exact ((c4_verified_erase ⟨fun _ _ _ => 0, fun t _ _ => t⟩
        false 0x1000 EraseSize.BLOCK_64K).2.2.2.2.1)


theorem pkU8_eq_some {n : Nat} {l : List Nat} :
    pkU8 n = some l ↔ n < 256 ∧ l = [n] := by
  simp [pkU8, Option.ite_none_right_eq_some, eq_comm]

theorem pkU16_eq_some {n : Nat} {l : List Nat} :
    pkU16 n = some l ↔ n < 65536 ∧ l = u16le n := by
  simp [pkU16, Option.ite_none_right_eq_some, eq_comm]

theorem pkU32_eq_some {n : Nat} {l : List Nat} :
    pkU32 n = some l ↔ n < 4294967296 ∧ l = u32le n := by
  simp [pkU32, Option.ite_none_right_eq_some, eq_comm]

theorem rdU32_u32le_exact (n : Nat) (h : n < 4294967296) :
    rdU32 (u32le n) = some (n, []) := by
  simpa using rdU32_u32le n [] h

theorem rdU16_u16le_exact (n : Nat) (h : n < 65536) :
    rdU16 (u16le n) = some (n, []) := by
  simpa using rdU16_u16le n [] h

/-- C5. Decoding inverts encoding on the closed packet set: for every
well-typed packet whose `serialize` succeeds, `deserialize` of its class on
the serialized bytes returns the packet — fixed struct formats,
trailing-bytes `$` formats, and the `EraseSize`-typed erase command alike. -/
theorem c5_packet_roundtrip (p : Packet) (bs : List Nat) (hwf : p.wf)
    (hser : p.serialize = some bs) :
    Packet.deserialize p.classOf bs = some p := by
  cases p with
  | BkLinkCheckCmnd =>
      simp only [Packet.serialize, Option.some.injEq] at hser
      subst hser
      simp [Packet.deserialize, Packet.classOf, Packet.expectEnd]
  | BkLinkCheckResp value =>
      simp only [Packet.serialize, pkU8_eq_some] at hser
      obtain ⟨h1, rfl⟩ := hser
      simp [Packet.deserialize, Packet.classOf, rdU8, Packet.expectEnd]
  | BkWriteRegCmnd address value =>
      simp only [Packet.serialize, Option.pure_def, Option.bind_eq_bind,
        Option.bind_eq_some, Option.some.injEq, pkU32_eq_some] at hser
      obtain ⟨x, ⟨h1, rfl⟩, y, ⟨h2, rfl⟩, rfl⟩ := hser
      simp [Packet.deserialize, Packet.classOf, rdU32_u32le, rdU32_u32le_exact,
        h1, h2, Packet.expectEnd]
  | BkWriteRegResp address value =>
      simp only [Packet.serialize, Option.pure_def, Option.bind_eq_bind,
        Option.bind_eq_some, Option.some.injEq, pkU32_eq_some] at hser
      obtain ⟨x, ⟨h1, rfl⟩, y, ⟨h2, rfl⟩, rfl⟩ := hser
      simp [Packet.deserialize, Packet.classOf, rdU32_u32le, rdU32_u32le_exact,
        h1, h2, Packet.expectEnd]
  | BkReadRegCmnd address =>
      simp only [Packet.serialize, pkU32_eq_some] at hser
      obtain ⟨h1, rfl⟩ := hser
      simp [Packet.deserialize, Packet.classOf, rdU32_u32le_exact, h1,
        Packet.expectEnd]
  | BkReadRegResp address value =>
      simp only [Packet.serialize, Option.pure_def, Option.bind_eq_bind,
        Option.bind_eq_some, Option.some.injEq, pkU32_eq_some] at hser
      obtain ⟨x, ⟨h1, rfl⟩, y, ⟨h2, rfl⟩, rfl⟩ := hser
      simp [Packet.deserialize, Packet.classOf, rdU32_u32le, rdU32_u32le_exact,
        h1, h2, Packet.expectEnd]
  | BkRebootCmnd value =>
      simp only [Packet.serialize, pkU8_eq_some] at hser
      obtain ⟨h1, rfl⟩ := hser
      simp [Packet.deserialize, Packet.classOf, rdU8, Packet.expectEnd]
  | BkSetBaudRateCmnd baudrate delay_ms =>
      simp only [Packet.serialize, Option.pure_def, Option.bind_eq_bind,
        Option.bind_eq_some, Option.some.injEq, pkU32_eq_some, pkU8_eq_some] at hser
      obtain ⟨x, ⟨h1, rfl⟩, y, ⟨h2, rfl⟩, rfl⟩ := hser
      simp [Packet.deserialize, Packet.classOf, rdU32_u32le, h1, rdU8,
        Packet.expectEnd]
  | BkCheckCrcCmnd start end_ =>
      simp only [Packet.serialize, Option.pure_def, Option.bind_eq_bind,
        Option.bind_eq_some, Option.some.injEq, pkU32_eq_some] at hser
      obtain ⟨x, ⟨h1, rfl⟩, y, ⟨h2, rfl⟩, rfl⟩ := hser
      simp [Packet.deserialize, Packet.classOf, rdU32_u32le, rdU32_u32le_exact,
        h1, h2, Packet.expectEnd]
  | BkCheckCrcResp crc =>
      simp only [Packet.serialize, pkU32_eq_some] at hser
      obtain ⟨h1, rfl⟩ := hser
      simp [Packet.deserialize, Packet.classOf, rdU32_u32le_exact, h1,
        Packet.expectEnd]
  | BkBootVersionCmnd =>
      simp only [Packet.serialize, Option.some.injEq] at hser
      subst hser
      simp [Packet.deserialize, Packet.classOf, Packet.expectEnd]
  | BkBootVersionResp version =>
      simp only [Packet.serialize, Option.some.injEq] at hser
      subst hser
      simp [Packet.deserialize, Packet.classOf]
  | BkFlashWriteCmnd start data =>
      simp only [Packet.serialize, Option.pure_def, Option.bind_eq_bind,
        Option.bind_eq_some, Option.some.injEq, pkU32_eq_some] at hser
      obtain ⟨x, ⟨h1, rfl⟩, rfl⟩ := hser
      simp [Packet.deserialize, Packet.classOf, rdU32_u32le, h1]
  | BkFlashWriteResp status start written =>
      simp only [Packet.serialize, Option.pure_def, Option.bind_eq_bind,
        Option.bind_eq_some, Option.some.injEq, pkU32_eq_some, pkU8_eq_some] at hser
      obtain ⟨x, ⟨h1, rfl⟩, y, ⟨h2, rfl⟩, z, ⟨h3, rfl⟩, rfl⟩ := hser
      simp [Packet.deserialize, Packet.classOf, rdU8, rdU32_u32le, h2,
        Packet.expectEnd]
  | BkFlashWrite4KCmnd start data =>
      simp only [Packet.serialize, Option.pure_def, Option.bind_eq_bind,
        Option.bind_eq_some, Option.some.injEq, pkU32_eq_some] at hser
      obtain ⟨x, ⟨h1, rfl⟩, rfl⟩ := hser
      simp [Packet.deserialize, Packet.classOf, rdU32_u32le, h1]
  | BkFlashWrite4KResp status start =>
      simp only [Packet.serialize, Option.pure_def, Option.bind_eq_bind,
        Option.bind_eq_some, Option.some.injEq, pkU32_eq_some, pkU8_eq_some] at hser
      obtain ⟨x, ⟨h1, rfl⟩, y, ⟨h2, rfl⟩, rfl⟩ := hser
      simp [Packet.deserialize, Packet.classOf, rdU8, rdU32_u32le_exact, h2,
        Packet.expectEnd]
  | BkFlashRead4KCmnd start =>
      simp only [Packet.serialize, pkU32_eq_some] at hser
      obtain ⟨h1, rfl⟩ := hser
      simp [Packet.deserialize, Packet.classOf, rdU32_u32le_exact, h1,
        Packet.expectEnd]
  | BkFlashRead4KResp status start data =>
      simp only [Packet.serialize, Option.pure_def, Option.bind_eq_bind,
        Option.bind_eq_some, Option.some.injEq, pkU32_eq_some, pkU8_eq_some] at hser
      obtain ⟨x, ⟨h1, rfl⟩, y, ⟨h2, rfl⟩, rfl⟩ := hser
      simp [Packet.deserialize, Packet.classOf, rdU8, rdU32_u32le, h2]
  | BkFlashReg8ReadCmnd cmd =>
      simp only [Packet.serialize, pkU8_eq_some] at hser
      obtain ⟨h1, rfl⟩ := hser
      simp [Packet.deserialize, Packet.classOf, rdU8, Packet.expectEnd]
  | BkFlashReg8ReadResp status cmd data0 =>
      simp only [Packet.serialize, Option.pure_def, Option.bind_eq_bind,
        Option.bind_eq_some, Option.some.injEq, pkU8_eq_some] at hser
      obtain ⟨x, ⟨h1, rfl⟩, y, ⟨h2, rfl⟩, z, ⟨h3, rfl⟩, rfl⟩ := hser
      simp [Packet.deserialize, Packet.classOf, rdU8, Packet.expectEnd]
  | BkFlashReg8WriteCmnd cmd data =>
      simp only [Packet.serialize, Option.pure_def, Option.bind_eq_bind,
        Option.bind_eq_some, Option.some.injEq, pkU8_eq_some] at hser
      obtain ⟨x, ⟨h1, rfl⟩, y, ⟨h2, rfl⟩, rfl⟩ := hser
      simp [Packet.deserialize, Packet.classOf, rdU8, Packet.expectEnd]
  | BkFlashReg8WriteResp status cmd data =>
      simp only [Packet.serialize, Option.pure_def, Option.bind_eq_bind,
        Option.bind_eq_some, Option.some.injEq, pkU8_eq_some] at hser
      obtain ⟨x, ⟨h1, rfl⟩, y, ⟨h2, rfl⟩, z, ⟨h3, rfl⟩, rfl⟩ := hser
      simp [Packet.deserialize, Packet.classOf, rdU8, Packet.expectEnd]
  | BkFlashReg16WriteCmnd cmd data =>
      simp only [Packet.serialize, Option.pure_def, Option.bind_eq_bind,
        Option.bind_eq_some, Option.some.injEq, pkU8_eq_some, pkU16_eq_some] at hser
      obtain ⟨x, ⟨h1, rfl⟩, y, ⟨h2, rfl⟩, rfl⟩ := hser
      simp [Packet.deserialize, Packet.classOf, rdU8, rdU16_u16le_exact, h2,
        Packet.expectEnd]
  | BkFlashReg16WriteResp status cmd data =>
      simp only [Packet.serialize, Option.pure_def, Option.bind_eq_bind,
        Option.bind_eq_some, Option.some.injEq, pkU8_eq_some, pkU16_eq_some] at hser
      obtain ⟨x, ⟨h1, rfl⟩, y, ⟨h2, rfl⟩, z, ⟨h3, rfl⟩, rfl⟩ := hser
      simp [Packet.deserialize, Packet.classOf, rdU8, rdU16_u16le_exact, h3,
        Packet.expectEnd]
  | BkFlashReg24ReadCmnd cmd =>
      simp only [Packet.serialize, pkU32_eq_some] at hser
      obtain ⟨h1, rfl⟩ := hser
      simp [Packet.deserialize, Packet.classOf, rdU32_u32le_exact, h1,
        Packet.expectEnd]
  | BkFlashReg24ReadResp status data0 data1 data2 =>
      simp only [Packet.serialize, Option.pure_def, Option.bind_eq_bind,
        Option.bind_eq_some, Option.some.injEq, pkU8_eq_some] at hser
      obtain ⟨x, ⟨h1, rfl⟩, y, ⟨h2, rfl⟩, z, ⟨h3, rfl⟩, w, ⟨h4, rfl⟩, rfl⟩ := hser
      simp [Packet.deserialize, Packet.classOf, rdU8, Packet.expectEnd]
  | BkFlashEraseBlockCmnd erase_size start =>
      simp only [Packet.serialize, Option.pure_def, Option.bind_eq_bind,
        Option.bind_eq_some, Option.some.injEq, pkU8_eq_some, pkU32_eq_some] at hser
      obtain ⟨x, ⟨h1, rfl⟩, y, ⟨h2, rfl⟩, rfl⟩ := hser
      have hmem : erase_size = 0x20 ∨ erase_size = 0xD8 := hwf
      simp [Packet.deserialize, Packet.classOf, rdU8, rdU32_u32le_exact, h2,
        Packet.expectEnd, hmem]

/-- C5 witness: the `EraseSize`-typed erase command at a concrete value. -/
theorem c5_packet_roundtrip_witness :
    Packet.deserialize
      (Packet.classOf (Packet.BkFlashEraseBlockCmnd 0x20 0x1000))
      [0x20, 0x00, 0x10, 0x00, 0x00] =
      some (Packet.BkFlashEraseBlockCmnd 0x20 0x1000) :=
  c5_packet_roundtrip (Packet.BkFlashEraseBlockCmnd 0x20 0x1000)
    [0x20, 0x00, 0x10, 0x00, 0x00] (Or.inl rfl) (by decide)

/-- C6. Command framing: preamble `01 E0 FC`; the long marker `FF F4` with a
16-bit little-endian length when `is_long` is set or `len(body)+1 >= 0xFF`,
else one length byte; length counts code+body; and `BkLinkCheckCmnd` encodes
to exactly `01 E0 FC 01 00`. -/
theorem c6_encode_framing (code : Nat) (is_long : Bool) (body : List Nat)
    (hcode : code < 256) (hlen : body.length + 1 < 65536) :
    encodeRaw code is_long body =
      some ([0x01, 0xE0, 0xFC] ++
        (if body.length + 1 ≥ 0xFF ∨ is_long = true then
          [0xFF, 0xF4] ++ u16le (body.length + 1)
         else
          [body.length + 1]) ++ [code] ++ body) ∧
    encode Packet.BkLinkCheckCmnd = some [0x01, 0xE0, 0xFC, 0x01, 0x00] := by
  constructor
  · rw [encodeRaw]
    by_cases h : body.length + 1 ≥ 0xFF ∨ is_long = true
    · rw [if_pos h, if_pos h]
      simp only [Option.pure_def, Option.bind_eq_bind, pkU16, if_pos hlen,
        Option.some_bind, pkU8, if_pos hcode, PACKET_CMND_PREAMBLE,
        PACKET_CMND_LONG, Option.some.injEq]
      simp
    · rw [if_neg h, if_neg h]
      have hsz : body.length + 1 < 256 := by
        rcases Nat.lt_or_ge (body.length + 1) 0xFF with hc | hc
        · omega
        · exact absurd (Or.inl hc) h
      simp only [Option.pure_def, Option.bind_eq_bind, pkU8, if_pos hsz,
        if_pos hcode, Option.some_bind, PACKET_CMND_PREAMBLE, Option.some.injEq]
  · decide

/-- C6 witness: the general framing statement applied to the link-check
command (code `0x00`, short, empty body). -/
theorem c6_encode_framing_witness :
    encodeRaw 0x00 false [] =
      some ([0x01, 0xE0, 0xFC] ++
        (if ([] : List Nat).length + 1 ≥ 0xFF ∨ false = true then
          [0xFF, 0xF4] ++ u16le (([] : List Nat).length + 1)
         else
          [([] : List Nat).length + 1]) ++ [0x00] ++ []) ∧
    encode Packet.BkLinkCheckCmnd = some [0x01, 0xE0, 0xFC, 0x01, 0x00] :=
  c6_encode_framing 0x00 false [] (by decide) (by decide)


/-- C8. When the RBL header validates but the reconstructed payload's CRC-32
differs from the header's `crc32` field, `Container.from_bytestream` still
returns the container with the parsed header — only `payload` is `None`; no
error is raised and the header is not discarded. -/
theorem c8_container_bad_payload_crc (data : List Nat) (h : RblHeader)
    (p : List Nat)
    (hmagic : data.take 4 = RBL_MAGIC)
    (hheader : headerFromBytes (data.take 96) = some h)
    (hpayload : reconstructPayload h data = some p)
    (hcrc : crc32 p 0 ≠ h.crc32) :
    containerFromBytes data = some ⟨h, none⟩ := by
  rw [containerFromBytes, if_neg (fun hne => hne hmagic), hheader]
  simp only [Option.bind_eq_bind, Option.some_bind]
  rw [hpayload]
  simp only [Option.bind_eq_bind, Option.some_bind]
  rw [if_neg hcrc]
  rfl

/-- C8 witness: `c8WitnessData` — a valid header whose `crc32` field is 1
while the empty payload has CRC-32 0; parsing yields the header with
`payload = none`. -/
theorem c8_container_bad_payload_crc_witness :
    containerFromBytes c8WitnessData =
      some ⟨⟨[82, 66, 76, 0], 0, 0, [65], [118], [115], 1, 0, 0, 0,
        0xEDD0BFB4⟩, none⟩ := by
  apply c8_container_bad_payload_crc _ _ []
  · decide
  · have e96 : List.take 96 c8WitnessData = c8WitnessData := by decide
    have e1 : List.take 92 c8WitnessData = c8W1 ++ (c8W2 ++ c8W3) := by decide
    have hc : crc32 (List.take 92 c8WitnessData) 0 = 0xEDD0BFB4 := by
      rw [e1, ← crc32_append, ← crc32_append]
      have h1 : crc32 c8W1 0 = 0xB03519AF := by decide
      have h2 : crc32 c8W2 0xB03519AF = 0xD5E63431 := by decide
      rw [h1, h2]
      decide
    have e2 : fromLE4 ((c8WitnessData.drop 92).take 4) = 0xEDD0BFB4 := by
      decide
    rw [e96, headerFromBytes,
      if_pos (by decide : c8WitnessData.length = 96),
      if_pos (hc.trans e2.symm)]
    decide
  · decide
  · decide

end BK7231
